import Mathlib

/-!
# Verification of the canvas_ai agent gateway against its specification

Shallow embedding of the Python sources of the `canvas_ai` repository:
`ws_server.py` (WebSocket session gateway), `src/tools/canvas_tools.py`
(Canvas / vector-store tool wrappers) and, where the vendored agent framework
is absent from the repository, spec-modelled definitions (each marked in its
doc comment).

JSON values are embedded as the inductive `Json`; Python semantics that the
sources rely on (truthiness, `dict.get`, `int(...)`, iteration, `str(...)`)
are embedded as explicit functions.  Numbers are embedded as `Int`
(floating-point rendering details are irrelevant to every claim proved here).
Fallible Python code is embedded in `Except PyExc`.
-/

set_option maxRecDepth 4000
set_option linter.unusedVariables false

/-- A JSON value as produced by `json.loads`.  Numbers are modelled as `Int`
(no claim depends on float behaviour). -/
inductive Json where
  | null : Json
  | bool (b : Bool) : Json
  | num (n : Int) : Json
  | str (s : String) : Json
  | arr (xs : List Json) : Json
  | obj (kvs : List (String × Json)) : Json

/-- A Python exception, identified by its `str(e)` rendering (`msg`) together
with its `traceback.format_exc()` rendering (`tb`, used only by the
vector-store tools' outermost handlers). -/
structure PyExc where
  msg : String
  tb : String := ""
deriving DecidableEq

/-- An exception with the given `str(e)` text and an empty traceback. -/
def pyErr (m : String) : PyExc := ⟨m, ""⟩

/-- First-match association lookup on the key/value list of a JSON object
(Python `dict` keys are unique, so first-match is exact). -/
def jlookup : List (String × Json) → String → Option Json
  | [], _ => none
  | (k, v) :: rest, key => if k = key then some v else jlookup rest key

/-- Python truthiness `bool(x)` of a JSON-decoded value. -/
def pyTruthy : Json → Bool
  | .null => false
  | .bool b => b
  | .num n => decide (n ≠ 0)
  | .str s => decide (s ≠ "")
  | .arr xs => !xs.isEmpty
  | .obj kvs => !kvs.isEmpty

/-- The Python type name of a JSON-decoded value (used in exception texts). -/
def pyTypeName : Json → String
  | .null => "NoneType"
  | .bool _ => "bool"
  | .num _ => "int"
  | .str _ => "str"
  | .arr _ => "list"
  | .obj _ => "dict"

/-- Python `str.strip()` (whitespace from both ends), via structural
recursion so that concrete instances evaluate. -/
def pyStrip (s : String) : String :=
  String.mk (((s.toList.dropWhile Char.isWhitespace).reverse.dropWhile
    Char.isWhitespace).reverse)

mutual

/-- Python `repr()` of a JSON-decoded value (string-escape subtleties inside
nested strings are not reproduced; no claim depends on them). -/
def pyRepr : Json → String
  | .null => "None"
  | .bool b => if b then "True" else "False"
  | .num n => toString n
  | .str s => "'" ++ s ++ "'"
  | .arr xs => "[" ++ pyReprList xs ++ "]"
  | .obj kvs => "\x7b" ++ pyReprObj kvs ++ "\x7d"

/-- `repr` of the comma-separated elements of a Python list. -/
def pyReprList : List Json → String
  | [] => ""
  | [x] => pyRepr x
  | x :: rest => pyRepr x ++ ", " ++ pyReprList rest

/-- `repr` of the comma-separated entries of a Python dict. -/
def pyReprObj : List (String × Json) → String
  | [] => ""
  | [(k, v)] => "'" ++ k ++ "': " ++ pyRepr v
  | (k, v) :: rest => "'" ++ k ++ "': " ++ pyRepr v ++ ", " ++ pyReprObj rest

end

/-- Python `str()` of a JSON-decoded value, as interpolated by f-strings. -/
def pyStr : Json → String
  | .null => "None"
  | .bool b => if b then "True" else "False"
  | .num n => toString n
  | .str s => s
  | .arr xs => "[" ++ pyReprList xs ++ "]"
  | .obj kvs => "\x7b" ++ pyReprObj kvs ++ "\x7d"

/-- `payload.get(key)` where `payload` is any JSON-decoded value: raises
`AttributeError` on non-dicts, returns Python `None` (here `Option.none`)
when the key is absent or its value is JSON `null`. -/
def pyDictGet : Json → String → Except PyExc (Option Json)
  | .obj kvs, key =>
      match jlookup kvs key with
      | some .null => .ok none
      | some v => .ok (some v)
      | none => .ok none
  | j, _ =>
      .error (pyErr ("'" ++ pyTypeName j ++ "' object has no attribute 'get'"))

/-- `d.get(key, default)` on a value known to be a dict: yields the default
only when the key is absent (a stored JSON `null` is returned as is). -/
def jGetD (j : Json) (key : String) (default : Json) : Json :=
  match j with
  | .obj kvs => (jlookup kvs key).getD default
  | _ => default

/-- Whether `j` is a dict containing `key` (Python `isinstance(j, dict) and
key in j`). -/
def jHasKey (j : Json) (key : String) : Bool :=
  match j with
  | .obj kvs => (jlookup kvs key).isSome
  | _ => false

/-- `d.get(key)` on a value that is a dict (the raw stored value; absent keys
give JSON null, matching Python `None`). -/
def jGet (j : Json) (key : String) : Json := jGetD j key .null

/-- `item.get(key, default)` where `item` may be any value: raises
`AttributeError` on non-dicts. -/
def pyGetD (j : Json) (key : String) (default : Json) : Except PyExc Json :=
  match j with
  | .obj kvs => .ok ((jlookup kvs key).getD default)
  | _ => .error (pyErr ("'" ++ pyTypeName j ++ "' object has no attribute 'get'"))

/-- Python iteration `for x in j`: lists yield elements, dicts their keys,
strings their characters; other values raise `TypeError`. -/
def pyIter : Json → Except PyExc (List Json)
  | .arr xs => .ok xs
  | .obj kvs => .ok (kvs.map (fun kv => .str kv.1))
  | .str s => .ok (s.toList.map (fun c => .str (String.singleton c)))
  | j => .error (pyErr ("'" ++ pyTypeName j ++ "' object is not iterable"))

/-- Python `int(x)` on a JSON-decoded value: exact on ints, parses decimal
strings (optionally signed, surrounding whitespace stripped), maps bools to
0/1, raises `TypeError`/`ValueError` otherwise. -/
def pyInt : Json → Except PyExc Int
  | .num n => .ok n
  | .bool b => .ok (if b then 1 else 0)
  | .str s =>
      let t := pyStrip s
      let core := if t.startsWith "-" || t.startsWith "+" then t.drop 1 else t
      if core ≠ "" && core.all Char.isDigit then
        .ok (if t.startsWith "-" then -(core.toNat!) else (core.toNat! : Int))
      else
        .error (pyErr ("invalid literal for int() with base 10: " ++ pyRepr (.str s)))
  | j => .error (pyErr ("int() argument must be a string, a bytes-like object or a real number, not '"
      ++ pyTypeName j ++ "'"))

/-- Python `str()` of a list of ints, e.g. `[5, 9]` (used by the
out-of-range error message of `handle_download_request`). -/
def pyStrIntList (xs : List Int) : String :=
  pyStr (.arr (xs.map Json.num))

/-!
## ToolResult

Modelled from the spec: the `ToolResult` class lives in the vendored
framework file `src/tools/tools.py`, which is not present in the repository
(only imported).  Per spec §3 it is a record of an `output` success payload
and an `error` failure description; the exactly-one-of discipline is stated
there as an invariant over produced values, not enforced by the constructor,
so the record is a plain pair of optional fields.  `Option.none` is Python
`None`; a populated field holds the Python value passed at the construction
site. -/
structure ToolResult where
  output : Option Json
  error : Option Json

/-- Exactly one of `output`/`error` is populated (spec §3, §8 property 9). -/
def ToolResult.exactlyOne (r : ToolResult) : Prop :=
  (r.output.isSome ∧ r.error.isNone) ∨ (r.output.isNone ∧ r.error.isSome)

/-- Both fields are non-null. -/
def ToolResult.bothSome (r : ToolResult) : Prop :=
  r.output.isSome ∧ r.error.isSome

/-- Both fields are null. -/
def ToolResult.bothNone (r : ToolResult) : Prop :=
  r.output = none ∧ r.error = none

/-!
## Canvas API base class and request helper (`src/tools/canvas_tools.py`)
-/

/-- Python slicing `v[:n]`: defined on strings and lists, `TypeError`
otherwise (`canvas_tools.py` applies it to `.get(...)` results). -/
def pySlice (v : Json) (n : Nat) : Except PyExc Json :=
  match v with
  | .str s => .ok (.str (s.take n))
  | .arr xs => .ok (.arr (xs.take n))
  | j => .error (pyErr ("'" ++ pyTypeName j ++ "' object is not subscriptable"))

/-- `round(num/den)` with banker's rounding, `den > 0`. -/
def roundHalfEven (num den : Int) : Int :=
  let q := num.fdiv den
  let r := num.fmod den
  if 2 * r < den then q
  else if 2 * r > den then q + 1
  else if q % 2 = 0 then q else q + 1

/-- Python `f"{n/den:.2f}"` computed exactly on the rational `n/den`
(binary-float rounding of the true quotient is approximated by rational
rounding; no claim depends on the digits). -/
def fmt2 (n den : Int) : String :=
  let c := roundHalfEven (n * 100) den
  let a := c.natAbs
  (if c < 0 then "-" else "") ++ toString (a / 100) ++ "." ++
    (if a % 100 < 10 then "0" else "") ++ toString (a % 100)

/-- `f"{v / den:.2f}"` on a JSON-decoded value: ints and bools divide,
anything else raises `TypeError`. -/
def pyDivFmt2 (v : Json) (den : Int) : Except PyExc String :=
  match v with
  | .num n => .ok (fmt2 n den)
  | .bool b => .ok (fmt2 (if b then 1 else 0) den)
  | j => .error (pyErr ("unsupported operand type(s) for /: '" ++ pyTypeName j ++ "' and 'int'"))

/-- Whether `sub` occurs in `s` (Python `sub in s`). -/
def strContains (s sub : String) : Bool := (s.splitOn sub).length > 1

/-- The environment variables read by `CanvasAPIBase.__init__`
(`None` = variable unset). -/
structure CanvasEnv where
  canvasUrl : Option String
  accessToken : Option String

/-- `CanvasAPIBase.__init__` (`canvas_tools.py` lines 18–34): normalizes the
Canvas URL, then raises `ValueError` when `CANVAS_ACCESS_TOKEN` is missing or
empty; on success yields `(base_url, access_token)`. -/
def canvasAPIBaseInit (env : CanvasEnv) : Except PyExc (String × String) :=
  let url0 := env.canvasUrl.getD "https://canvas.instructure.com"
  let url1 := if strContains url0 "http://" then url0.replace "http://" "https://" else url0
  let url2 := if strContains url1 "http" then url1 else "https://" ++ url1
  match env.accessToken with
  | none => .error (pyErr ("未找到 CANVAS_ACCESS_TOKEN 环境变量"))
  | some tok =>
      if tok = "" then .error (pyErr ("未找到 CANVAS_ACCESS_TOKEN 环境变量"))
      else .ok (url2 ++ "/api/v1", tok)

/-- The outcome of one `aiohttp` request made by `_make_request`: a 200
response with a decoded JSON body, a 404, another non-200 status with its
response text, or a raised exception. -/
inductive HttpOutcome where
  | ok (body : Json) : HttpOutcome
  | notFound : HttpOutcome
  | failStatus (code : Int) (text : String) : HttpOutcome
  | exc (e : PyExc) : HttpOutcome

/-- `CanvasAPIBase._make_request` (lines 36–64): maps each outcome to the
JSON value the method returns (error dictionaries for every failure). -/
def makeRequest : HttpOutcome → Json
  | .ok body => body
  | .notFound => .obj [("error", .str "Resource not found")]
  | .failStatus code text =>
      .obj [("error", .str ("API Request Failed (Status Code " ++ toString code ++ "): " ++ text))]
  | .exc e => .obj [("error", .str ("Request Error: " ++ e.msg))]

/-- An `HttpOutcome` that is an ordinary failure (exception, 404, or other
non-200 status). -/
def HttpOutcome.isFail : HttpOutcome → Prop
  | .ok _ => False
  | _ => True

/-- A Python value (`None` or a JSON value that is not `null`). -/
def pyOfJson : Json → Option Json
  | .null => none
  | v => some v

/-- The `except Exception` wrapper closing every tool `forward`: a raised
exception becomes `ToolResult(output=None, error=f"<pre>{str(e)}")`. -/
def pyCatch (pre : String) (body : Except PyExc ToolResult) : ToolResult :=
  match body with
  | .ok r => r
  | .error e => ⟨none, some (.str (pre ++ e.msg))⟩

/-- The body shared by every single-request Canvas tool `forward`: make the
request, return the error dictionary's `error` member when present
(`ToolResult(output=None, error=result["error"])`), otherwise format the
result (which may raise) into the success output. -/
def canvasBody (format : Json → Except PyExc String) (o : HttpOutcome) :
    Except PyExc ToolResult :=
  let result := makeRequest o
  if jHasKey result "error" then
    .ok ⟨none, pyOfJson (jGet result "error")⟩
  else
    match format result with
    | .ok out => .ok ⟨some (.str out), none⟩
    | .error e => .error e

/-- A single-request Canvas tool `forward`: the shared body wrapped in the
tool-specific `except Exception` clause. -/
def canvasStdForward (pre : String) (format : Json → Except PyExc String)
    (o : HttpOutcome) : ToolResult :=
  pyCatch pre (canvasBody format o)

/-- Python `len(x)`. -/
def pyLen (j : Json) : Except PyExc Nat :=
  match j with
  | .arr xs => .ok xs.length
  | .obj kvs => .ok kvs.length
  | .str s => .ok s.length
  | _ => .error (pyErr ("object of type '" ++ pyTypeName j ++ "' has no len()"))

/-- Formatting part of `CanvasListCourses.forward` (lines 114–131). -/
def fmtListCourses (result : Json) : Except PyExc String := do
  let courses ← pyIter result
  let infos ← courses.mapM (fun course => do
    let cid ← pyGetD course "id" .null
    let name ← pyGetD course "name" .null
    let code ← pyGetD course "course_code" .null
    let _ ← pyGetD course "workflow_state" .null
    let _ ← pyGetD course "enrollments" (.arr [])
    pure (cid, name, code))
  pure ("找到 " ++ toString infos.length ++ " 门课程:\n" ++
    String.intercalate "\n" (infos.map (fun i =>
      "- [" ++ pyStr i.1 ++ "] " ++ pyStr i.2.1 ++ " (" ++ pyStr i.2.2 ++ ")")))

/-- `CanvasListCourses.forward` (lines 94–133). -/
def canvasListCoursesForward (enrollment_state inc : String) (o : HttpOutcome) : ToolResult :=
  canvasStdForward "获取课程列表失败: " fmtListCourses o

/-- Formatting part of `CanvasGetAssignments.forward` (lines 179–202). -/
def fmtAssignments (course_id : String) (result : Json) : Except PyExc String := do
  let items ← pyIter result
  let infos ← items.mapM (fun a => do
    let aid ← pyGetD a "id" .null
    let name ← pyGetD a "name" .null
    let due ← pyGetD a "due_at" (.str "无截止日期")
    let pts ← pyGetD a "points_possible" (.num 0)
    let _ ← pyGetD a "submission_types" (.arr [])
    let sub ← pyGetD a "submission" (.obj [])
    pure (aid, name, due, pts, sub))
  infos.foldlM (fun acc i => do
    let sub := i.2.2.2.2
    let status ← if pyTruthy sub then pyGetD sub "workflow_state" (.str "未提交")
                 else pure (Json.str "未提交")
    pure (acc ++ "- [" ++ pyStr i.1 ++ "] " ++ pyStr i.2.1 ++ " (截止: " ++ pyStr i.2.2.1 ++
      ", 分值: " ++ pyStr i.2.2.2.1 ++ ", 状态: " ++ pyStr status ++ ")\n"))
    ("课程 " ++ course_id ++ " 共有 " ++ toString infos.length ++ " 个作业:\n")

/-- `CanvasGetAssignments.forward` (lines 162–205). -/
def canvasGetAssignmentsForward (course_id : String) (include_submission : Bool)
    (o : HttpOutcome) : ToolResult :=
  canvasStdForward "获取作业列表失败: " (fmtAssignments course_id) o

/-- Formatting part of `CanvasGetModules.forward` (lines 321–328). -/
def fmtModules (course_id : String) (result : Json) : Except PyExc String := do
  let items ← pyIter result
  items.foldlM (fun acc m => do
    let mid ← pyGetD m "id" .null
    let name ← pyGetD m "name" .null
    let st ← pyGetD m "workflow_state" .null
    let cnt ← pyGetD m "items_count" (.num 0)
    pure (acc ++ "\n📚 模块 [" ++ pyStr mid ++ "]: " ++ pyStr name ++ "\n" ++
      "   状态: " ++ pyStr st ++ "\n" ++ "   项目数: " ++ pyStr cnt ++ "\n"))
    ("课程 " ++ course_id ++ " 的模块结构:\n")

/-- `CanvasGetModules.forward` (lines 310–331). -/
def canvasGetModulesForward (course_id : String) (o : HttpOutcome) : ToolResult :=
  canvasStdForward "获取模块列表失败: " (fmtModules course_id) o

/-- The icon dictionary lookup of `CanvasGetModuleItems.forward`
(lines 374–383): Python `dict.get` raises on unhashable keys. -/
def iconFor (v : Json) : Except PyExc String :=
  match v with
  | .str "Assignment" => .ok "📝"
  | .str "Page" => .ok "📄"
  | .str "File" => .ok "📁"
  | .str "Discussion" => .ok "💬"
  | .str "Quiz" => .ok "✏️"
  | .str "ExternalUrl" => .ok "🔗"
  | .str "ExternalTool" => .ok "🔧"
  | .arr _ => .error (pyErr "unhashable type: 'list'")
  | .obj _ => .error (pyErr "unhashable type: 'dict'")
  | _ => .ok "•"

/-- Formatting part of `CanvasGetModuleItems.forward` (lines 372–385). -/
def fmtModuleItems (module_id : String) (result : Json) : Except PyExc String := do
  let items ← pyIter result
  items.foldlM (fun acc item => do
    let ty ← pyGetD item "type" .null
    let icon ← iconFor ty
    let iid ← pyGetD item "id" .null
    let title ← pyGetD item "title" .null
    let ty2 ← pyGetD item "type" .null
    pure (acc ++ icon ++ " [" ++ pyStr iid ++ "] " ++ pyStr title ++ " (" ++ pyStr ty2 ++ ")\n"))
    ("模块 " ++ module_id ++ " 的内容:\n")

/-- `CanvasGetModuleItems.forward` (lines 359–388). -/
def canvasGetModuleItemsForward (course_id module_id : String) (o : HttpOutcome) : ToolResult :=
  canvasStdForward "获取模块项失败: " (fmtModuleItems module_id) o

/-- Formatting part of `CanvasGetFiles.forward` (lines 434–440). -/
def fmtFiles (course_id : String) (result : Json) : Except PyExc String := do
  let items ← pyIter result
  items.foldlM (fun acc file => do
    let size ← pyGetD file "size" (.num 0)
    let mb ← pyDivFmt2 size (1024 * 1024)
    let fid ← pyGetD file "id" .null
    let name ← pyGetD file "display_name" .null
    let cty ← pyGetD file "content-type" (.str "未知类型")
    let url ← pyGetD file "url" .null
    pure (acc ++ "📁 [" ++ pyStr fid ++ "] " ++ pyStr name ++ " " ++
      "(" ++ mb ++ "MB, " ++ pyStr cty ++ ")\n" ++ "   URL: " ++ pyStr url ++ "\n"))
    ("课程 " ++ course_id ++ " 的文件:\n")

/-- `CanvasGetFiles.forward` (lines 417–443). -/
def canvasGetFilesForward (course_id search_term : String) (o : HttpOutcome) : ToolResult :=
  canvasStdForward "获取文件列表失败: " (fmtFiles course_id) o

/-- Formatting part of `CanvasGetDiscussions.forward` (lines 480–485). -/
def fmtDiscussions (course_id : String) (result : Json) : Except PyExc String := do
  let items ← pyIter result
  items.foldlM (fun acc topic => do
    let tid ← pyGetD topic "id" .null
    let title ← pyGetD topic "title" .null
    let posted ← pyGetD topic "posted_at" (.str "未知")
    let cnt ← pyGetD topic "discussion_subentry_count" (.num 0)
    pure (acc ++ "💬 [" ++ pyStr tid ++ "] " ++ pyStr title ++ "\n" ++
      "   发布时间: " ++ pyStr posted ++ "\n" ++ "   回复数: " ++ pyStr cnt ++ "\n"))
    ("课程 " ++ course_id ++ " 的讨论:\n")

/-- `CanvasGetDiscussions.forward` (lines 467–488). -/
def canvasGetDiscussionsForward (course_id : String) (o : HttpOutcome) : ToolResult :=
  canvasStdForward "获取讨论列表失败: " (fmtDiscussions course_id) o

/-- Formatting part of `CanvasGetAnnouncements.forward` (lines 588–594). -/
def fmtAnnouncements (result : Json) : Except PyExc String := do
  let items ← pyIter result
  items.foldlM (fun acc a => do
    let title ← pyGetD a "title" .null
    let posted ← pyGetD a "posted_at" (.str "未知")
    let msg ← pyGetD a "message" (.str "无内容")
    let msgCut ← pySlice msg 200
    pure (acc ++ "\n标题: " ++ pyStr title ++ "\n" ++
      "发布时间: " ++ pyStr posted ++ "\n" ++ "内容: " ++ pyStr msgCut ++ "...\n"))
    "📢 最新公告:\n"

/-- `CanvasGetAnnouncements.forward` (lines 572–597). -/
def canvasGetAnnouncementsForward (context_codes : String) (o : HttpOutcome) : ToolResult :=
  canvasStdForward "获取公告失败: " fmtAnnouncements o

/-- Formatting part of `CanvasGetCalendarEvents.forward` (lines 649–657). -/
def fmtCalendarEvents (result : Json) : Except PyExc String := do
  let items ← pyIter result
  items.foldlM (fun acc event => do
    let title ← pyGetD event "title" .null
    let start ← pyGetD event "start_at" (.str "未知")
    let ty ← pyGetD event "type" (.str "未知")
    let desc ← pyGetD event "description" .null
    let descLine ←
      if pyTruthy desc then do
        let desc2 ← pyGetD event "description" .null
        let cut ← pySlice desc2 100
        pure ("   描述: " ++ pyStr cut ++ "...\n")
      else pure ""
    pure (acc ++ "\n🗓️ " ++ pyStr title ++ "\n" ++ "   时间: " ++ pyStr start ++ "\n" ++
      "   类型: " ++ pyStr ty ++ "\n" ++ descLine))
    "📅 日历事件:\n"

/-- `CanvasGetCalendarEvents.forward` (lines 627–660). -/
def canvasGetCalendarEventsForward (start_date end_date : String) (o : HttpOutcome) : ToolResult :=
  canvasStdForward "获取日历事件失败: " fmtCalendarEvents o

/-- Formatting part of `CanvasGetGrades.forward` (lines 704–712). -/
def fmtGrades (course_id : String) (result : Json) : Except PyExc String := do
  let items ← pyIter result
  items.foldlM (fun acc enrollment => do
    let grades ← pyGetD enrollment "grades" (.obj [])
    let cg ← pyGetD grades "current_grade" (.str "暂无")
    let cs ← pyGetD grades "current_score" (.str "暂无")
    let fg ← pyGetD grades "final_grade" (.str "暂无")
    let fs ← pyGetD grades "final_score" (.str "暂无")
    pure (acc ++ "📊 当前成绩: " ++ pyStr cg ++ "\n" ++ "   当前分数: " ++ pyStr cs ++ "\n" ++
      "   最终成绩: " ++ pyStr fg ++ "\n" ++ "   最终分数: " ++ pyStr fs ++ "\n"))
    ("课程 " ++ course_id ++ " 的成绩:\n")

/-- Body of `CanvasGetGrades.forward` (lines 684–715): two requests
(`users/self`, then the enrollments), each with the error-dictionary check. -/
def canvasGetGradesBody (course_id : String) (o1 o2 : HttpOutcome) : Except PyExc ToolResult :=
  let user_result := makeRequest o1
  if jHasKey user_result "error" then
    .ok ⟨none, pyOfJson (jGet user_result "error")⟩
  else
    match pyDictGet user_result "id" with
    | .error e => .error e
    | .ok _ =>
        let result := makeRequest o2
        if jHasKey result "error" then
          .ok ⟨none, pyOfJson (jGet result "error")⟩
        else
          match fmtGrades course_id result with
          | .ok out => .ok ⟨some (.str out), none⟩
          | .error e => .error e

/-- `CanvasGetGrades.forward` (lines 684–715). -/
def canvasGetGradesForward (course_id : String) (o1 o2 : HttpOutcome) : ToolResult :=
  pyCatch "获取成绩失败: " (canvasGetGradesBody course_id o1 o2)

/-- Formatting part of `CanvasGetPages.forward` (lines 751–757). -/
def fmtPages (course_id : String) (result : Json) : Except PyExc String := do
  let items ← pyIter result
  items.foldlM (fun acc page => do
    let title ← pyGetD page "title" .null
    let url ← pyGetD page "url" .null
    let upd ← pyGetD page "updated_at" (.str "未知")
    pure (acc ++ "📄 " ++ pyStr title ++ "\n" ++ "   URL: " ++ pyStr url ++ "\n" ++
      "   更新时间: " ++ pyStr upd ++ "\n"))
    ("课程 " ++ course_id ++ " 的页面:\n")

/-- `CanvasGetPages.forward` (lines 739–760). -/
def canvasGetPagesForward (course_id : String) (o : HttpOutcome) : ToolResult :=
  canvasStdForward "获取页面列表失败: " (fmtPages course_id) o

/-- Formatting part of `CanvasGetPageContent.forward` (lines 798–803). -/
def fmtPageContent (result : Json) : Except PyExc String := do
  let title ← pyGetD result "title" .null
  let upd ← pyGetD result "updated_at" (.str "未知")
  let body ← pyGetD result "body" (.str "无内容")
  pure ("📄 页面: " ++ pyStr title ++ "\n" ++ "更新时间: " ++ pyStr upd ++ "\n\n" ++
    "内容:\n" ++ pyStr body ++ "\n")

/-- `CanvasGetPageContent.forward` (lines 788–806). -/
def canvasGetPageContentForward (course_id page_url : String) (o : HttpOutcome) : ToolResult :=
  canvasStdForward "获取页面内容失败: " fmtPageContent o

/-- Formatting part of `CanvasGetQuizzes.forward` (lines 843–849). -/
def fmtQuizzes (course_id : String) (result : Json) : Except PyExc String := do
  let items ← pyIter result
  items.foldlM (fun acc quiz => do
    let qid ← pyGetD quiz "id" .null
    let title ← pyGetD quiz "title" .null
    let ty ← pyGetD quiz "quiz_type" (.str "未知")
    let pts ← pyGetD quiz "points_possible" (.num 0)
    let due ← pyGetD quiz "due_at" (.str "无截止时间")
    pure (acc ++ "✏️ [" ++ pyStr qid ++ "] " ++ pyStr title ++ "\n" ++
      "   类型: " ++ pyStr ty ++ "\n" ++ "   分数: " ++ pyStr pts ++ "\n" ++
      "   截止时间: " ++ pyStr due ++ "\n"))
    ("课程 " ++ course_id ++ " 的测验:\n")

/-- `CanvasGetQuizzes.forward` (lines 830–852). -/
def canvasGetQuizzesForward (course_id : String) (o : HttpOutcome) : ToolResult :=
  canvasStdForward "获取测验列表失败: " (fmtQuizzes course_id) o

/-- Formatting part of `CanvasGetTodoItems.forward` (lines 880–887). -/
def fmtTodoItems (result : Json) : Except PyExc String := do
  let items ← pyIter result
  items.foldlM (fun acc item => do
    let assignment ← pyGetD item "assignment" (.obj [])
    let name ← pyGetD assignment "name" (.str "未知任务")
    let ctx ← pyGetD item "context_name" (.str "未知")
    let due ← pyGetD assignment "due_at" (.str "无截止时间")
    let pts ← pyGetD assignment "points_possible" (.num 0)
    pure (acc ++ "\n• " ++ pyStr name ++ "\n" ++ "  课程: " ++ pyStr ctx ++ "\n" ++
      "  截止: " ++ pyStr due ++ "\n" ++ "  分数: " ++ pyStr pts ++ "\n"))
    "📝 待办事项:\n"

/-- `CanvasGetTodoItems.forward` (lines 871–890). -/
def canvasGetTodoItemsForward (o : HttpOutcome) : ToolResult :=
  canvasStdForward "获取待办事项失败: " fmtTodoItems o

/-- Formatting part of `CanvasGetUpcomingEvents.forward` (lines 918–923). -/
def fmtUpcomingEvents (result : Json) : Except PyExc String := do
  let items ← pyIter result
  items.foldlM (fun acc event => do
    let title ← pyGetD event "title" (.str "未知事件")
    let start ← pyGetD event "start_at" (.str "未知")
    let ty ← pyGetD event "type" (.str "未知")
    pure (acc ++ "\n• " ++ pyStr title ++ "\n" ++ "  时间: " ++ pyStr start ++ "\n" ++
      "  类型: " ++ pyStr ty ++ "\n"))
    "🗓️ 即将到来的事件:\n"

/-- `CanvasGetUpcomingEvents.forward` (lines 909–926). -/
def canvasGetUpcomingEventsForward (o : HttpOutcome) : ToolResult :=
  canvasStdForward "获取即将事件失败: " fmtUpcomingEvents o

/-- Formatting part of `CanvasGetGroups.forward` (lines 954–959). -/
def fmtGroups (result : Json) : Except PyExc String := do
  let items ← pyIter result
  items.foldlM (fun acc group => do
    let gid ← pyGetD group "id" .null
    let name ← pyGetD group "name" .null
    let members ← pyGetD group "members_count" (.num 0)
    let cid ← pyGetD group "course_id" (.str "未知")
    pure (acc ++ "\n• [" ++ pyStr gid ++ "] " ++ pyStr name ++ "\n" ++
      "  成员数: " ++ pyStr members ++ "\n" ++ "  课程: " ++ pyStr cid ++ "\n"))
    "👥 我的小组:\n"

/-- `CanvasGetGroups.forward` (lines 945–962). -/
def canvasGetGroupsForward (o : HttpOutcome) : ToolResult :=
  canvasStdForward "获取小组列表失败: " fmtGroups o

/-- Formatting part of `CanvasGetFileInfo.forward` (lines 995–1002). -/
def fmtFileInfo (result : Json) : Except PyExc String := do
  let name ← pyGetD result "display_name" .null
  let fid ← pyGetD result "id" .null
  let size ← pyGetD result "size" (.num 0)
  let mb ← pyDivFmt2 size (1024 * 1024)
  let cty ← pyGetD result "content-type" (.str "未知")
  let modAt ← pyGetD result "modified_at" (.str "未知")
  let url ← pyGetD result "url" .null
  pure ("📁 文件信息:\n" ++ "名称: " ++ pyStr name ++ "\n" ++ "ID: " ++ pyStr fid ++ "\n" ++
    "大小: " ++ mb ++ " MB\n" ++ "类型: " ++ pyStr cty ++ "\n" ++
    "修改时间: " ++ pyStr modAt ++ "\n" ++ "下载链接: " ++ pyStr url ++ "\n")

/-- `CanvasGetFileInfo.forward` (lines 986–1005). -/
def canvasGetFileInfoForward (file_id : String) (o : HttpOutcome) : ToolResult :=
  canvasStdForward "获取文件信息失败: " fmtFileInfo o

/-- Formatting part of `CanvasGetFolders.forward` (lines 1041–1045). -/
def fmtFolders (course_id : String) (result : Json) : Except PyExc String := do
  let items ← pyIter result
  items.foldlM (fun acc folder => do
    let fid ← pyGetD folder "id" .null
    let name ← pyGetD folder "full_name" .null
    let cnt ← pyGetD folder "files_count" (.num 0)
    pure (acc ++ "• [" ++ pyStr fid ++ "] " ++ pyStr name ++ "\n" ++
      "  文件数: " ++ pyStr cnt ++ "\n"))
    ("📂 课程 " ++ course_id ++ " 的文件夹:\n")

/-- `CanvasGetFolders.forward` (lines 1028–1048). -/
def canvasGetFoldersForward (course_id : String) (o : HttpOutcome) : ToolResult :=
  canvasStdForward "获取文件夹列表失败: " (fmtFolders course_id) o

/-- Formatting part of `CanvasGetFolderFiles.forward` (lines 1085–1091). -/
def fmtFolderFiles (folder_id : String) (result : Json) : Except PyExc String := do
  let items ← pyIter result
  items.foldlM (fun acc file => do
    let size ← pyGetD file "size" (.num 0)
    let mb ← pyDivFmt2 size (1024 * 1024)
    let fid ← pyGetD file "id" .null
    let name ← pyGetD file "display_name" .null
    let cty ← pyGetD file "content-type" (.str "未知")
    pure (acc ++ "📄 [" ++ pyStr fid ++ "] " ++ pyStr name ++ "\n" ++
      "   大小: " ++ mb ++ " MB\n" ++ "   类型: " ++ pyStr cty ++ "\n"))
    ("📂 文件夹 " ++ folder_id ++ " 中的文件:\n")

/-- `CanvasGetFolderFiles.forward` (lines 1072–1094). -/
def canvasGetFolderFilesForward (folder_id : String) (o : HttpOutcome) : ToolResult :=
  canvasStdForward "获取文件夹文件失败: " (fmtFolderFiles folder_id) o

/-- Formatting part of `CanvasSearchFiles.forward` (lines 1135–1144). -/
def fmtSearchFiles (search_term : String) (result : Json) : Except PyExc String := do
  let len ← pyLen result
  let head := "🔍 搜索 '" ++ search_term ++ "' 的结果:\n"
  if len = 0 then
    pure (head ++ "未找到匹配的文件")
  else do
    let items ← pyIter result
    items.foldlM (fun acc file => do
      let name ← pyGetD file "display_name" .null
      let fid ← pyGetD file "id" .null
      let size ← pyGetD file "size" (.num 0)
      let kb ← pyDivFmt2 size 1024
      let url ← pyGetD file "url" .null
      pure (acc ++ "\n📄 " ++ pyStr name ++ "\n" ++ "   文件ID: " ++ pyStr fid ++ "\n" ++
        "   大小: " ++ kb ++ " KB\n" ++ "   下载: " ++ pyStr url ++ "\n"))
      head

/-- `CanvasSearchFiles.forward` (lines 1122–1147). -/
def canvasSearchFilesForward (course_id search_term : String) (o : HttpOutcome) : ToolResult :=
  canvasStdForward "搜索文件失败: " (fmtSearchFiles search_term) o

/-!
## Vector-store tools (`canvas_tools.py` lines 1150–1671)

The OpenAI client objects are attribute objects, not JSON; they are embedded
as records whose `Option` fields mirror the `hasattr` checks of the source.
Float renderings produced by the OpenAI API (`score:.2%`) and
`datetime.strftime` renderings are carried as already-rendered strings, and
the paginated file listing is collapsed into the list it returns. -/

/-- The environment read at the start of every vector-store `forward`:
whether `from openai import OpenAI` succeeds, and `OPENAI_API_KEY`. -/
structure OpenAIEnv where
  importOk : Bool
  apiKey : Option String

/-- `s[:n]` for a Python int `n` (negative `n` drops from the end). -/
def pyStrTake (s : String) (n : Int) : String :=
  if n ≥ 0 then s.take n.toNat else s.take (s.length - (-n).toNat)

/-- The 60-character `'='*60` separator used by the vector-store tools. -/
def sep60 : String := String.mk (List.replicate 60 '=')

/-- The import/credentials prologue shared by every vector-store `forward`
(each repeats lines equivalent to 1253–1268): `none` means the prologue
passed. -/
def openaiPrologue (env : OpenAIEnv) : Option ToolResult :=
  if !env.importOk then
    some ⟨none, some (.str "OpenAI 库未安装，请运行: pip install openai")⟩
  else if env.apiKey = none ∨ env.apiKey = some "" then
    some ⟨none, some (.str "未配置 OPENAI_API_KEY，请在 .env 文件中添加")⟩
  else none

/-- One vector store as returned by `client.vector_stores.list`. -/
structure VSStore where
  id : String
  name : String
  fileCountsTotal : Option Int
  createdAt : Option String

/-- `VectorStoreList.forward` (lines 1166–1217). -/
def vectorStoreListForward (env : OpenAIEnv)
    (listOutcome : Except PyExc (List VSStore)) : ToolResult :=
  match openaiPrologue env with
  | some r => r
  | none =>
    match listOutcome with
    | .error e => ⟨none, some (.str ("获取知识库列表失败: " ++ e.msg))⟩
    | .ok [] =>
        ⟨some (.str "📋 当前没有可用的知识库\n请先运行 file_index_downloader.py 创建知识库"), none⟩
    | .ok stores =>
        let body := (List.enumFrom 1 stores).foldl (fun acc p =>
          let vs := p.2
          let fc := vs.fileCountsTotal.getD 0
          acc ++ toString p.1 ++ ". [" ++ vs.id ++ "] " ++ vs.name ++ "\n" ++
            "   📁 文件数量: " ++ toString fc ++ "\n" ++
            (match vs.createdAt with
             | some c => "   📅 创建时间: " ++ c ++ "\n"
             | none => "") ++ "\n") ""
        ⟨some (.str ("📚 找到 " ++ toString stores.length ++ " 个课程知识库:\n\n" ++ body)), none⟩

/-- One search hit as returned by `client.vector_stores.search`; `scorePct`
is the `f"{result.score:.2%}"` rendering of the float score. -/
structure SearchHit where
  scorePct : Option String
  filename : Option String
  attributes : Option Json
  content : Option String

/-- `VectorStoreSearch.forward` (lines 1250–1329).  An empty hit list also
covers the `not response or not hasattr(response, 'data')` cases, which
produce the same reply. -/
def vectorStoreSearchForward (env : OpenAIEnv) (vector_store_id query : String)
    (max_results : Int) (searchOutcome : Except PyExc (List SearchHit)) : ToolResult :=
  match openaiPrologue env with
  | some r => r
  | none =>
    match searchOutcome with
    | .error e =>
        ⟨none, some (.str ("搜索失败: " ++ e.msg ++ "\n详情: " ++ e.tb.take 500))⟩
    | .ok [] =>
        ⟨some (.str ("🔍 搜索查询: \"" ++ query ++ "\"\n❌ 未找到相关内容")), none⟩
    | .ok hits =>
        let body := (List.enumFrom 1 hits).foldl (fun acc p =>
          let r := p.2
          acc ++ sep60 ++ "\n" ++ "结果 " ++ toString p.1 ++ ":\n" ++
            (match r.scorePct with
             | some s => "📈 相关性: " ++ s ++ "\n"
             | none => "") ++
            (match r.filename with
             | some f => "📄 来源: " ++ f ++ "\n"
             | none => "") ++
            (match r.attributes with
             | some a => if pyTruthy a then "🏷️  属性: " ++ pyStr a ++ "\n" else ""
             | none => "") ++
            (match r.content with
             | some c =>
                 let c2 := if c.length > 800 then c.take 800 ++ "...\n(内容已截断)" else c
                 "\n📝 内容:\n" ++ c2 ++ "\n"
             | none => "") ++ "\n") ""
        ⟨some (.str ("🔍 搜索查询: \"" ++ query ++ "\"\n📊 找到 " ++ toString hits.length ++
          " 个相关结果:\n\n" ++ body)), none⟩

/-- Per-file details fetched via `client.files.retrieve` in
`VectorStoreListFiles.forward`. -/
structure VSFileInfo where
  filename : Option String
  bytes : Option Int
  purpose : Option String

/-- The bytes read via `client.files.content(...).read()`: their UTF-8
decoding when it succeeds, and their length. -/
structure FileContent where
  decoded : Option String
  byteLen : Nat

/-- One vector-store file entry in `VectorStoreListFiles.forward`, with the
outcomes of the per-file `files.retrieve` and `files.content` calls. -/
structure VSFile where
  id : String
  status : Option String
  createdAt : Option String
  infoOutcome : Except PyExc VSFileInfo
  contentOutcome : Except PyExc FileContent

/-- The size rendering of lines 1459–1464: `bytes/1024` KB, promoted to MB
at 1024 KB. -/
def renderSizeKB (n : Int) : String :=
  if n ≥ 1024 * 1024 then "📦 大小: " ++ fmt2 n (1024 * 1024) ++ " MB\n"
  else "📦 大小: " ++ fmt2 n 1024 ++ " KB\n"

/-- `VectorStoreListFiles.forward` (lines 1363–1505); the pagination loop is
collapsed into the file list it accumulated. -/
def vectorStoreListFilesForward (env : OpenAIEnv) (vector_store_id : String)
    (read_content : Bool) (limit : Int)
    (filesOutcome : Except PyExc (List VSFile)) : ToolResult :=
  match openaiPrologue env with
  | some r => r
  | none =>
    match filesOutcome with
    | .error e =>
        ⟨none, some (.str ("获取文件列表失败: " ++ e.msg ++ "\n详情: " ++ e.tb.take 500))⟩
    | .ok [] =>
        ⟨some (.str ("📋 Vector Store [" ++ vector_store_id ++ "] 中没有文件")), none⟩
    | .ok files =>
        let body := (List.enumFrom 1 files).foldl (fun acc p =>
          let file := p.2
          acc ++ sep60 ++ "\n" ++ "文件 " ++ toString p.1 ++ ":\n" ++
            "🆔 File ID: " ++ file.id ++ "\n" ++
            (match file.status with
             | some st =>
                 (if st = "completed" then "✅" else "⏳") ++ " 状态: " ++ st ++ "\n"
             | none => "") ++
            (match file.createdAt with
             | some c => "📅 创建时间: " ++ c ++ "\n"
             | none => "") ++
            (match file.infoOutcome with
             | .error e => "\n⚠️  获取文件信息失败: " ++ e.msg ++ "\n"
             | .ok info =>
                 (match info.filename with
                  | some fn => "📄 文件名: " ++ fn ++ "\n"
                  | none => "") ++
                 (match info.bytes with
                  | some n => renderSizeKB n
                  | none => "") ++
                 (match info.purpose with
                  | some pu => "🎯 用途: " ++ pu ++ "\n"
                  | none => "") ++
                 (if read_content ∧ file.status = some "completed" then
                    match file.contentOutcome with
                    | .error e => "\n⚠️  读取内容失败: " ++ e.msg ++ "\n"
                    | .ok c =>
                        match c.decoded with
                        | some txt =>
                            let t2 := if txt.length > 1000 then
                                txt.take 1000 ++ "\n...(内容已截断)" else txt
                            "\n📝 内容预览:\n" ++ t2 ++ "\n"
                        | none =>
                            "\n⚠️  无法显示文件内容（非文本文件或编码问题）\n" ++
                            "   文件大小: " ++ toString c.byteLen ++ " 字节\n"
                  else "")) ++ "\n") ""
        ⟨some (.str ("📚 Vector Store [" ++ vector_store_id ++ "] 文件列表:\n" ++
          "找到 " ++ toString files.length ++ " 个文件\n\n" ++ body)), none⟩

/-- The type sniffed from the first bytes of a binary file (lines 1650–1655). -/
inductive BinaryKind where
  | pdf : BinaryKind
  | zipOffice : BinaryKind
  | other : BinaryKind

/-- The content read in `VectorStoreGetFile.forward`, with the prefix-sniffed
kind used for undecodable bytes. -/
structure FileContentK where
  decoded : Option String
  byteLen : Nat
  kind : BinaryKind

/-- The file-information object retrieved in `VectorStoreGetFile.forward`. -/
structure VSFileDetail where
  id : String
  filename : Option String
  purpose : Option String
  bytes : Option Int
  createdAt : Option String
  status : Option String

/-- `VectorStoreGetFile.forward` (lines 1533–1671). -/
def vectorStoreGetFileForward (env : OpenAIEnv) (file_id : String) (max_length : Int)
    (retrieveOutcome : Except PyExc VSFileDetail)
    (contentOutcome : Except PyExc FileContentK) : ToolResult :=
  match openaiPrologue env with
  | some r => r
  | none =>
    match retrieveOutcome with
    | .error e =>
        ⟨none, some (.str ("获取文件失败: " ++ e.msg ++ "\n详情: " ++ e.tb.take 500))⟩
    | .ok info =>
        let header := "📄 文件详细信息:\n" ++ sep60 ++ "\n" ++
          "🆔 File ID: " ++ info.id ++ "\n" ++
          (match info.filename with
           | some fn => "📝 文件名: " ++ fn ++ "\n"
           | none => "") ++
          (match info.purpose with
           | some pu => "🎯 用途: " ++ pu ++ "\n"
           | none => "") ++
          (match info.bytes with
           | some n =>
               if n ≥ 1024 * 1024 then "📦 大小: " ++ fmt2 n (1024 * 1024) ++ " MB\n"
               else "📦 大小: " ++ fmt2 n 1024 ++ " KB\n"
           | none => "") ++
          (match info.createdAt with
           | some c => "📅 创建时间: " ++ c ++ "\n"
           | none => "") ++
          (match info.status with
           | some st =>
               (if st = "processed" then "✅" else "⏳") ++ " 状态: " ++ st ++ "\n"
           | none => "") ++
          "\n" ++ sep60 ++ "\n"
        let contentPart :=
          match contentOutcome with
          | .error e => "\n⚠️  读取文件内容失败: " ++ e.msg ++ "\n"
          | .ok c =>
              match c.decoded with
              | some txt =>
                  "\n📖 文件内容:\n" ++ sep60 ++ "\n" ++
                  (if (txt.length : Int) > max_length then
                     pyStrTake txt max_length ++ "\n\n" ++ sep60 ++ "\n" ++
                     "⚠️  内容已截断（显示 " ++ toString max_length ++ "/" ++
                     toString txt.length ++ " 字符）\n" ++
                     "完整内容共 " ++ toString txt.length ++ " 字符\n"
                   else
                     txt ++ "\n" ++ sep60 ++ "\n" ++
                     "✅ 已显示完整内容（" ++ toString txt.length ++ " 字符）\n")
              | none =>
                  "\n⚠️  文件是二进制格式，无法显示为文本\n" ++
                  "文件大小: " ++ toString c.byteLen ++ " 字节\n" ++
                  (match c.kind with
                   | .pdf => "文件类型: PDF 文档\n"
                   | .zipOffice => "文件类型: ZIP/Office 文档\n"
                   | .other => "文件类型: 未知二进制文件\n")
        ⟨some (.str (header ++ contentPart)), none⟩

/-- `CalculatorTool.forward` (`example_calculator.py` lines 34–57); the
`eval` of the expression is an oracle outcome. -/
def calculatorToolForward (expression : String) (evalOutcome : Except PyExc Json) : ToolResult :=
  match evalOutcome with
  | .ok v => ⟨some (.str ("计算结果: " ++ expression ++ " = " ++ pyStr v)), none⟩
  | .error e => ⟨none, some (.str ("计算错误: " ++ e.msg))⟩

/-!
## WebSocket gateway (`ws_server.py`)
-/

/-- Whether a Python value equals the string literal `s` (Python `==` between
a JSON-decoded value and a `str` is true only for that string). -/
def jIsStr (v : Json) (s : String) : Bool :=
  match v with
  | .str t => t = s
  | _ => false

/-- Whether an optional Python value equals the string literal `s`. -/
def isStrVal (v : Option Json) (s : String) : Bool :=
  match v with
  | some (.str t) => t = s
  | _ => false

/-- Python `isinstance(v, bool)`. -/
def isBoolVal (v : Json) : Bool :=
  match v with
  | .bool _ => true
  | _ => false

/-- Presence-based lookup: the raw member value when the key is present
(even JSON null), `none` when absent or the value is not a dict. -/
def jRawGet (j : Json) (k : String) : Option Json :=
  match j with
  | .obj kvs => jlookup kvs k
  | _ => none

/-- Python subscription `j[k]` with a string key: `KeyError` when absent,
`TypeError` on non-dicts. -/
def pySubscr (j : Json) (k : String) : Except PyExc Json :=
  match j with
  | .obj kvs =>
      match jlookup kvs k with
      | some v => .ok v
      | none => .error (pyErr ("'" ++ k ++ "'"))
  | .arr _ => .error (pyErr "list indices must be integers or slices, not str")
  | j' => .error (pyErr ("'" ++ pyTypeName j' ++ "' object is not subscriptable"))

/-- `{"error": msg}`. -/
def errObj (msg : String) : Json := .obj [("error", .str msg)]

/-- The server-side authentication configuration read from the environment
(`ws_server.py` lines 27–35): `verifyWindow1 c` is
`pyotp.TOTP(TOTP_SECRET).verify(c, valid_window=1)` at the current instant;
`totpCtorOk` is whether the `pyotp.TOTP` constructor succeeds. -/
structure AuthEnv where
  authPassword : String
  totpDisabled : Bool
  totpSecret : Option String
  totpCtorOk : Bool
  verifyWindow1 : String → Bool

/-- `authenticate_payload` (`ws_server.py` lines 242–269).  Callers only pass
dict payloads (the `payload.get("type")` guard has already succeeded), so
field access is the normalized dict lookup. -/
def authenticatePayload (env : AuthEnv) (payload : Json) : Bool × Option String :=
  let password := pyOfJson (jGet payload "password")
  let totp_code := pyOfJson (jGet payload "totp")
  if env.authPassword = "" then
    (false, some "Server password is not configured.")
  else if ¬ isStrVal password env.authPassword then
    (false, some "Invalid password.")
  else if env.totpDisabled then
    (true, none)
  else
    match totp_code with
    | some (.str c) =>
        if pyStrip c = "" then (false, some "Missing TOTP code.")
        else
          match env.totpSecret with
          | none => (false, some "Server missing CANVAS_WS_TOTP_SECRET.")
          | some sec =>
              if sec = "" then (false, some "Server missing CANVAS_WS_TOTP_SECRET.")
              else if ¬ env.totpCtorOk then (false, some "Server TOTP secret is invalid.")
              else if ¬ env.verifyWindow1 c then (false, some "Invalid or expired TOTP code.")
              else (true, none)
    | _ => (false, some "Missing TOTP code.")

/-- One stored session (`create_session`'s dict): creation time, last
activity time, and the pending course catalog.  Times are seconds as `Int`
(`time.time()` floats carry no claim-relevant fractional behaviour). -/
structure Session where
  created : Int
  lastSeen : Int
  pendingCourses : Option (List Json)

/-- `SESSION_STORE`. -/
abbrev SessionStore := List (String × Session)

/-- `SESSION_STORE[key] = data` (replacing any existing entry). -/
def storeSet (st : SessionStore) (k : String) (v : Session) : SessionStore :=
  st.filter (fun p => p.1 ≠ k) ++ [(k, v)]

/-- `prune_sessions` (lines 272–285): no-op when the TTL is ≤ 0, otherwise
drops every session with `now - last_seen > ttl`. -/
def pruneSessions (ttl now : Int) (st : SessionStore) : SessionStore :=
  if ttl ≤ 0 then st
  else st.filter (fun p => ¬ (now - p.2.lastSeen > ttl))

/-- `get_session` (lines 305–313): prune, then look the key up and advance
its `last_seen` to `now`. -/
def getSession (ttl now : Int) (st : SessionStore) (key : String) :
    SessionStore × Option Session :=
  let st1 := pruneSessions ttl now st
  match List.lookup key st1 with
  | none => (st1, none)
  | some s =>
      let s2 : Session := ⟨s.created, now, s.pendingCourses⟩
      (storeSet st1 key s2, some s2)

/-- `create_session` (lines 288–302): prune, then insert a fresh session
under the freshly generated key. -/
def createSession (ttl now : Int) (st : SessionStore) (freshKey : String) :
    SessionStore × String × Session :=
  let st1 := pruneSessions ttl now st
  let data : Session := ⟨now, now, none⟩
  (storeSet st1 freshKey data, freshKey, data)

/-- `update_session` (lines 316–321): advance `last_seen` and write back,
only when the key is still stored. -/
def updateSession (now : Int) (st : SessionStore) (key : String) (data : Session) :
    SessionStore × Session :=
  let d2 : Session := ⟨data.created, now, data.pendingCourses⟩
  if (List.lookup key st).isSome then (storeSet st key d2, d2) else (st, d2)

/-- Which side effect a download request produced: nothing, a catalog fetch,
or a downloader run configured with the given course ids. -/
inductive DownloadEffect where
  | noRun : DownloadEffect
  | fetchedCatalog : DownloadEffect
  | ran (course_ids : Option (List Int)) (auto_confirm : Bool) (skip : Bool) : DownloadEffect

/-- The collaborators `handle_download_request` reaches out to:
`fetch_course_catalog()`, `file_index_downloader.main(...)`, and the
downloader's statistics dictionary. -/
structure DownloadEnv where
  catalogOutcome : Except PyExc (List Json)
  downloaderOutcome : Except PyExc Unit
  stats : Json

/-- First occurrences of `xs` in order (the `seen`-set deduplication of
lines 172–177). -/
def dedupFirst (xs : List Int) : List Int :=
  xs.foldl (fun acc x => if x ∈ acc then acc else acc ++ [x]) []

/-- `int(pending_courses[idx - 1]["id"])` for each retained index
(line 177); subscription/conversion failures propagate. -/
def resolveIds (plist : List Json) (indices : List Int) : Except PyExc (List Int) :=
  indices.mapM (fun idx => do
    let course := plist.getD (idx - 1).toNat .null
    let v ← pySubscr course "id"
    pyInt v)

/-- Steps 181–222 of `handle_download_request`, shared by the ids and the
indices paths: the `auto_confirm` type check, the catalog fetch when no
selector was supplied, the no-selector error, and the downloader run. -/
def downloadTail (env : DownloadEnv) (skip : Bool) (course_ids : Option (List Int))
    (bothRawNone : Bool) (auto_confirm : Json) (pending : Option (List Json)) :
    Except PyExc (Json × Option (List Json) × DownloadEffect) := do
  if ¬ isBoolVal auto_confirm then
    return (errObj "auto_confirm must be a boolean.", pending, .noRun)
  if bothRawNone ∧ ¬ skip then
    match env.catalogOutcome with
    | .error e =>
        return (errObj ("Failed to fetch courses: " ++ e.msg), pending, .noRun)
    | .ok courses => do
        let course_list ← (List.enumFrom 1 courses).mapM (fun p => do
          let cid ← pyGetD p.2 "id" .null
          let nm ← pyGetD p.2 "name" .null
          let cd ← pyGetD p.2 "course_code" .null
          pure (Json.obj [("index", .num p.1), ("id", cid), ("name", nm), ("code", cd)]))
        return (Json.obj [("status", .str "course_list"), ("courses", .arr course_list)],
          some courses, .fetchedCatalog)
  else if (course_ids = none ∨ course_ids = some []) ∧ ¬ skip then
    return (errObj "Provide course_ids or course_indices after requesting the course list.",
      pending, .noRun)
  else
    match env.downloaderOutcome with
    | .error e => .error e
    | .ok _ =>
        let ids := match course_ids with
          | some l => if l.isEmpty then none else some l
          | none => none
        let ac := match auto_confirm with
          | .bool b => b
          | _ => false
        return (Json.obj [("status", .str "completed"), ("stats", env.stats)], none,
          .ran ids ac skip)

/-- `handle_download_request` (`ws_server.py` lines 135–222). -/
def handleDownloadRequest (env : DownloadEnv) (message : Json)
    (pending : Option (List Json)) :
    Except PyExc (Json × Option (List Json) × DownloadEffect) := do
  let skip_download := pyTruthy (jGetD message "skip_download" (.bool false))
  let course_ids_raw := pyOfJson (jGet message "course_ids")
  let course_indices_raw := pyOfJson (jGet message "course_indices")
  let auto_confirm := (jRawGet message "auto_confirm").getD (.bool true)
  let idsStep : Json ⊕ Option (List Int) :=
    match course_ids_raw with
    | none => .inr none
    | some (.arr xs) =>
        match xs.mapM pyInt with
        | .ok ids => .inr (some ids)
        | .error _ => .inl (errObj "course_ids must contain valid integers.")
    | some _ => .inl (errObj "course_ids must be a list of integers.")
  match idsStep with
  | .inl resp => return (resp, pending, .noRun)
  | .inr course_ids0 =>
    match course_indices_raw with
    | none =>
        downloadTail env skip_download course_ids0
          course_ids_raw.isNone auto_confirm pending
    | some (.arr xs) =>
        match pending with
        | none =>
            return (errObj "Course list not initialized. Request the course list first.",
              pending, .noRun)
        | some plist =>
            match xs.mapM pyInt with
            | .error _ =>
                return (errObj "course_indices must contain valid integers.", pending, .noRun)
            | .ok indices =>
                if indices.isEmpty then
                  return (errObj "course_indices cannot be empty.", pending, .noRun)
                else
                  let invalid := indices.filter (fun idx =>
                    decide (idx < 1) || decide (idx > (plist.length : Int)))
                  if ¬ invalid.isEmpty then
                    return (errObj ("course_indices out of range: " ++ pyStrIntList invalid),
                      pending, .noRun)
                  else do
                    let resolved ← resolveIds plist (dedupFirst indices)
                    downloadTail env skip_download (some resolved) false auto_confirm pending
    | some _ =>
        return (errObj "course_indices must be a list of integers.", pending, .noRun)

/-- The collaborators of the message-routing layer: agent construction
(`build_agent`), the agent run (already `str(...)`-rendered), the download
collaborators, the authentication configuration, `SESSION_TTL_SECONDS`, and
the `secrets.token_urlsafe(32)` key the next `create_session` draws. -/
structure GatewayEnv where
  buildOutcome : Except PyExc Unit
  runOutcome : String → Except PyExc String
  download : DownloadEnv
  auth : AuthEnv
  ttl : Int
  freshKey : String

/-- `handle_agent_query` (lines 98–107): build the agent (failures
propagate), validate the query, run the agent, wrap as `{"answer": ...}`. -/
def handleAgentQuery (env : GatewayEnv) (message : Json) : Except PyExc Json := do
  let _ ← env.buildOutcome
  match pyOfJson (jGet message "query") with
  | some (.str q) =>
      if pyStrip q = "" then
        return errObj "Payload must include a non-empty 'query' field."
      else do
        let result ← env.runOutcome q
        return Json.obj [("answer", .str result)]
  | _ => return errObj "Payload must include a non-empty 'query' field."

/-- `message.get("type") or "chat"` (line 231): the effective message type;
`.get` on a non-dict payload raises. -/
def msgType (message : Json) : Except PyExc Json := do
  let tyOpt ← pyDictGet message "type"
  pure (match tyOpt with
    | some v => if pyTruthy v then v else Json.str "chat"
    | none => Json.str "chat")

/-- The `chat`/`query` routing target (lines 233–234): the agent reply with
the pending catalog passed through unchanged. -/
def chatRouted (env : GatewayEnv) (message : Json) (pending : Option (List Json)) :
    Except PyExc (Json × Option (List Json) × DownloadEffect) := do
  let resp ← handleAgentQuery env message
  return (resp, pending, .noRun)

/-- `handle_message` (lines 225–239): route on the effective type. -/
def handleMessage (env : GatewayEnv) (message : Json) (pending : Option (List Json)) :
    Except PyExc (Json × Option (List Json) × DownloadEffect) := do
  let message_type ← msgType message
  if jIsStr message_type "chat" ∨ jIsStr message_type "query" then
    chatRouted env message pending
  else if jIsStr message_type "download" then
    handleDownloadRequest env.download message pending
  else
    return (errObj ("Unsupported message type: " ++ pyStr message_type), pending, .noRun)

/-- One incoming WebSocket frame: text that fails `json.loads`, or a decoded
JSON payload. -/
inductive RawMsg where
  | malformed (text : String) : RawMsg
  | json (payload : Json) : RawMsg

/-- What the handler does after processing one message: read the next
message (`continue`), leave the loop and close the connection (`break`), or
let an uncaught exception escape the handler (which also ends the
connection, with no reply sent). -/
inductive StepAction where
  | cont : StepAction
  | stop : StepAction
  | crash (e : PyExc) : StepAction

/-- The per-connection mutable locals of `websocket_handler`
(lines 326–329). -/
structure ConnState where
  authenticated : Bool
  pendingCourses : Option (List Json)
  sessionKey : Option String
  sessionData : Option Session

/-- The observable outcome of processing one message in
`websocket_handler`: the reply sent (if any), the updated connection locals
and session store, the control action, and whether `handle_message` (the
routing/agent/tool layer) was invoked. -/
structure StepResult where
  reply : Option Json
  conn : ConnState
  store : SessionStore
  action : StepAction
  routed : Bool

/-- The `{"status": "authenticated", ...}` reply (lines 361–364 and
375–378): `expires_in` is attached only when the TTL is positive. -/
def authReply (ttl : Int) (key : String) : Json :=
  .obj ([("status", .str "authenticated"), ("session_key", .str key)] ++
    (if ttl > 0 then [("expires_in", .num ttl)] else []))

/-- The post-authentication part of the loop body (lines 381–391): route the
message, catch any exception into an `{"error": ...}` reply (resetting the
pending catalog), then write the pending catalog back into the session. -/
def handlerStepAuthed (env : GatewayEnv) (now : Int) (st : SessionStore)
    (conn : ConnState) (payload : Json) : StepResult :=
  let routedOut := handleMessage env payload conn.pendingCourses
  let (resp, pending2) :=
    match routedOut with
    | .ok (r, p, _) => (r, p)
    | .error e => (errObj e.msg, none)
  match conn.sessionKey, conn.sessionData with
  | some key, some data =>
      if key ≠ "" then
        let data2 : Session := ⟨data.created, data.lastSeen, pending2⟩
        let (st2, data3) := updateSession now st key data2
        { reply := some resp,
          conn := { conn with pendingCourses := pending2, sessionData := some data3 },
          store := st2, action := .cont, routed := true }
      else
        { reply := some resp, conn := { conn with pendingCourses := pending2 },
          store := st, action := .cont, routed := true }
  | _, _ =>
      { reply := some resp, conn := { conn with pendingCourses := pending2 },
        store := st, action := .cont, routed := true }

/-- The pre-authentication part of the loop body (lines 339–379):
non-`auth` messages are refused and the loop broken; `payload.get` on a
non-dict payload raises out of the handler; session-key resumption and
password+TOTP authentication follow the source. -/
def handlerStepUnauthed (env : GatewayEnv) (now : Int) (st : SessionStore)
    (conn : ConnState) (payload : Json) : StepResult :=
  match pyDictGet payload "type" with
  | .error e =>
      { reply := none, conn := conn, store := st, action := .crash e, routed := false }
  | .ok tyOpt =>
    if ¬ isStrVal tyOpt "auth" then
      { reply := some (errObj "Authentication required."), conn := conn, store := st,
        action := .stop, routed := false }
    else
      let requested : Option String :=
        match pyOfJson (jGet payload "session_key") with
        | some (.str s) => some (pyStrip s)
        | _ => none
      match requested with
      | some key =>
        if key ≠ "" then
          let (st1, sess) := getSession env.ttl now st key
          match sess with
          | none =>
              { reply := some (errObj "Invalid or expired session_key."), conn := conn,
                store := st1, action := .stop, routed := false }
          | some s =>
              { reply := some (authReply env.ttl key),
                conn := { authenticated := true, pendingCourses := s.pendingCourses,
                          sessionKey := some key, sessionData := some s },
                store := st1, action := .cont, routed := false }
        else
          let (ok, err) := authenticatePayload env.auth payload
          if ¬ ok then
            { reply := some (errObj (err.getD "")), conn := conn, store := st,
              action := .stop, routed := false }
          else
            let (st1, key, data) := createSession env.ttl now st env.freshKey
            { reply := some (authReply env.ttl key),
              conn := { authenticated := true, pendingCourses := data.pendingCourses,
                        sessionKey := some key, sessionData := some data },
              store := st1, action := .cont, routed := false }
      | none =>
          let (ok, err) := authenticatePayload env.auth payload
          if ¬ ok then
            { reply := some (errObj (err.getD "")), conn := conn, store := st,
              action := .stop, routed := false }
          else
            let (st1, key, data) := createSession env.ttl now st env.freshKey
            { reply := some (authReply env.ttl key),
              conn := { authenticated := true, pendingCourses := data.pendingCourses,
                        sessionKey := some key, sessionData := some data },
              store := st1, action := .cont, routed := false }

/-- One iteration of `websocket_handler`'s `async for` loop (lines 332–391)
on one incoming frame. -/
def handlerStep (env : GatewayEnv) (now : Int) (st : SessionStore) (conn : ConnState)
    (raw : RawMsg) : StepResult :=
  match raw with
  | .malformed _ =>
      { reply := some (errObj "Invalid JSON payload."), conn := conn, store := st,
        action := .cont, routed := false }
  | .json payload =>
      if conn.authenticated then handlerStepAuthed env now st conn payload
      else handlerStepUnauthed env now st conn payload

/-- The handler loop over a finite incoming frame sequence: replies are
accumulated while the action is `cont`; `stop`/`crash` end the connection. -/
def handlerRun (env : GatewayEnv) (now : Int) :
    SessionStore → ConnState → List RawMsg → List Json
  | _, _, [] => []
  | st, conn, m :: rest =>
      let r := handlerStep env now st conn m
      (match r.reply with
       | some j => [j]
       | none => []) ++
      (match r.action with
       | .cont => handlerRun env now r.store r.conn rest
       | _ => [])

/-- The connection state at the start of a connection (lines 326–329). -/
def initialConn : ConnState :=
  { authenticated := false, pendingCourses := none, sessionKey := none, sessionData := none }

/-!
## The bounded agent loop

Modelled from the spec: the agent loop itself (the vendored
DeepResearchAgent framework behind `src.registry.AGENT`, built by
`build_agent` in `ws_server.py` with `max_steps` from
`configs/canvas_agent_config.py`) is not part of the repository.  The
definitions below follow spec §4.3 (the algorithm steps 1–3) literally:
initialize the conversation, loop while the step counter is below the
configured maximum, ask the model, execute requested tool calls, append one
tool message per call id, increment; exhausting the budget terminates with
the distinct `StepLimitExceeded` outcome. -/

/-- Spec §3 `ToolCallRequest`: call id, tool name, arguments. -/
structure ToolCallRequest where
  callId : String
  toolName : String
  arguments : Json

/-- Spec §4.2: the Model Client's discriminated result. -/
inductive ModelDecision where
  | finalAnswer (text : String) : ModelDecision
  | toolCalls (reqs : List ToolCallRequest) : ModelDecision

/-- Spec §3 `ConversationMessage` (the role-tagged conversation entries). -/
inductive AgentMessage where
  | system (text : String) : AgentMessage
  | user (text : String) : AgentMessage
  | toolMsg (callId : String) (result : ToolResult) : AgentMessage

/-- Spec §4.3: the terminal outcomes of one run (unrecovered model failures
are out of scope for the claims settled here). -/
inductive RunOutcome where
  | done (answer : String) : RunOutcome
  | stepLimitExceeded : RunOutcome
deriving DecidableEq

/-- Spec §4.3 step 2c: execute one tool-call request — unknown names become
an error `ToolResult` rather than failing the run. -/
def execCall (tools : String → Option (Json → ToolResult)) (req : ToolCallRequest) :
    AgentMessage :=
  match tools req.toolName with
  | some f => .toolMsg req.callId (f req.arguments)
  | none => .toolMsg req.callId ⟨none, some (.str ("unknown tool " ++ req.toolName))⟩

/-- Spec §4.3 step 2: the loop on the remaining step budget; returns the
outcome and the number of completed rounds. -/
def agentLoopAux (client : List AgentMessage → ModelDecision)
    (tools : String → Option (Json → ToolResult)) :
    List AgentMessage → Nat → RunOutcome × Nat
  | _, 0 => (.stepLimitExceeded, 0)
  | msgs, n + 1 =>
      match client msgs with
      | .finalAnswer t => (.done t, 0)
      | .toolCalls reqs =>
          let out := agentLoopAux client tools (msgs ++ reqs.map (execCall tools)) n
          (out.1, out.2 + 1)

/-- Spec §4.3 step 1 + 2: `run(query)` — initialize the conversation with
the system message and the query, step counter 0, budget `maxSteps`. -/
def agentRun (client : List AgentMessage → ModelDecision)
    (tools : String → Option (Json → ToolResult)) (sysPrompt : String)
    (maxSteps : Nat) (query : String) : RunOutcome × Nat :=
  agentLoopAux client tools [.system sysPrompt, .user query] maxSteps

/-- `max_steps` of `canvas_student_agent_config`
(`configs/canvas_agent_config.py` line 41), passed to the agent by
`build_agent` (`ws_server.py` line 89). -/
def canvasAgentConfigMaxSteps : Nat := 15

/-- A stub Model Client that always requests a tool call and never returns
a final answer. -/
def stubToolCallClient : List AgentMessage → ModelDecision :=
  fun _ => .toolCalls [⟨"call-1", "canvas_list_courses", .null⟩]

/-- An empty tool registry. -/
def noTools : String → Option (Json → ToolResult) := fun _ => none

/-!
## The set of `ToolResult`s producible by the system's tools
-/

/-- `r` is producible by some registered tool's `forward` under some oracle
outcome (one constructor per tool defined in `canvas_tools.py` /
`example_calculator.py`). -/
inductive SysProduced : ToolResult → Prop where
  | listCourses (es inc : String) (o : HttpOutcome) :
      SysProduced (canvasListCoursesForward es inc o)
  | getAssignments (cid : String) (b : Bool) (o : HttpOutcome) :
      SysProduced (canvasGetAssignmentsForward cid b o)
  | getModules (cid : String) (o : HttpOutcome) :
      SysProduced (canvasGetModulesForward cid o)
  | getModuleItems (cid mid : String) (o : HttpOutcome) :
      SysProduced (canvasGetModuleItemsForward cid mid o)
  | getFiles (cid term : String) (o : HttpOutcome) :
      SysProduced (canvasGetFilesForward cid term o)
  | getDiscussions (cid : String) (o : HttpOutcome) :
      SysProduced (canvasGetDiscussionsForward cid o)
  | getAnnouncements (codes : String) (o : HttpOutcome) :
      SysProduced (canvasGetAnnouncementsForward codes o)
  | getCalendarEvents (sd ed : String) (o : HttpOutcome) :
      SysProduced (canvasGetCalendarEventsForward sd ed o)
  | getGrades (cid : String) (o1 o2 : HttpOutcome) :
      SysProduced (canvasGetGradesForward cid o1 o2)
  | getPages (cid : String) (o : HttpOutcome) :
      SysProduced (canvasGetPagesForward cid o)
  | getPageContent (cid purl : String) (o : HttpOutcome) :
      SysProduced (canvasGetPageContentForward cid purl o)
  | getQuizzes (cid : String) (o : HttpOutcome) :
      SysProduced (canvasGetQuizzesForward cid o)
  | getTodoItems (o : HttpOutcome) :
      SysProduced (canvasGetTodoItemsForward o)
  | getUpcomingEvents (o : HttpOutcome) :
      SysProduced (canvasGetUpcomingEventsForward o)
  | getGroups (o : HttpOutcome) :
      SysProduced (canvasGetGroupsForward o)
  | getFileInfo (fid : String) (o : HttpOutcome) :
      SysProduced (canvasGetFileInfoForward fid o)
  | getFolders (cid : String) (o : HttpOutcome) :
      SysProduced (canvasGetFoldersForward cid o)
  | getFolderFiles (fid : String) (o : HttpOutcome) :
      SysProduced (canvasGetFolderFilesForward fid o)
  | searchFiles (cid term : String) (o : HttpOutcome) :
      SysProduced (canvasSearchFilesForward cid term o)
  | vsList (env : OpenAIEnv) (oc : Except PyExc (List VSStore)) :
      SysProduced (vectorStoreListForward env oc)
  | vsSearch (env : OpenAIEnv) (vid q : String) (mr : Int)
      (oc : Except PyExc (List SearchHit)) :
      SysProduced (vectorStoreSearchForward env vid q mr oc)
  | vsListFiles (env : OpenAIEnv) (vid : String) (rc : Bool) (lim : Int)
      (oc : Except PyExc (List VSFile)) :
      SysProduced (vectorStoreListFilesForward env vid rc lim oc)
  | vsGetFile (env : OpenAIEnv) (fid : String) (ml : Int)
      (oc1 : Except PyExc VSFileDetail) (oc2 : Except PyExc FileContentK) :
      SysProduced (vectorStoreGetFileForward env fid ml oc1 oc2)
  | calcTool (expr : String) (oc : Except PyExc Json) :
      SysProduced (calculatorToolForward expr oc)

/-!
## Helper lemmas
-/

theorem pyOfJson_eq_none_iff (v : Json) : pyOfJson v = none ↔ v = .null := by
  cases v <;> simp [pyOfJson]

theorem isStrVal_eq_true_iff (v : Option Json) (s : String) :
    isStrVal v s = true ↔ v = some (.str s) := by
  match v with
  | none => simp [isStrVal]
  | some .null => simp [isStrVal]
  | some (.bool b) => simp [isStrVal]
  | some (.num n) => simp [isStrVal]
  | some (.str t) => simp [isStrVal]
  | some (.arr xs) => simp [isStrVal]
  | some (.obj kvs) => simp [isStrVal]

theorem pyDictGet_obj (kvs : List (String × Json)) (k : String) :
    pyDictGet (.obj kvs) k = .ok (pyOfJson (jGet (.obj kvs) k)) := by
  simp only [pyDictGet, jGet, jGetD]
  cases h : jlookup kvs k with
  | none => rfl
  | some v => cases v <;> rfl

/-!
## C1 — step-bounded termination of the agent loop
-/

/-- C1: for every configured step maximum `N ≥ 1`, a Model Client that
always returns a tool-call request makes `run(query)` terminate after
exactly `N` rounds with the distinct `StepLimitExceeded` outcome, and the
completed-round count never exceeds `N`. -/
theorem C1_step_bound_termination
    (client : List AgentMessage → ModelDecision)
    (tools : String → Option (Json → ToolResult)) (sysPrompt query : String)
    (N : Nat) (hN : 1 ≤ N)
    (hclient : ∀ msgs, ∃ reqs, client msgs = .toolCalls reqs) :
    agentRun client tools sysPrompt N query = (.stepLimitExceeded, N) ∧
    (agentRun client tools sysPrompt N query).2 ≤ N := by
  have key : ∀ n msgs, agentLoopAux client tools msgs n = (.stepLimitExceeded, n) := by
    intro n
    induction n with
    | zero => intro msgs; rfl
    | succ k ih =>
        intro msgs
        obtain ⟨reqs, hr⟩ := hclient msgs
        simp [agentLoopAux, hr, ih]
  refine ⟨key N _, ?_⟩
  simp [agentRun, key]

theorem C1_step_bound_termination_witness :
    agentRun stubToolCallClient noTools "system prompt" canvasAgentConfigMaxSteps "query"
      = (.stepLimitExceeded, canvasAgentConfigMaxSteps) :=
  (C1_step_bound_termination stubToolCallClient noTools "system prompt" "query"
    canvasAgentConfigMaxSteps (by decide)
    (fun _ => ⟨[⟨"call-1", "canvas_list_courses", .null⟩], rfl⟩)).1

/-!
## Tool-result shape lemmas
-/

theorem canvasBody_ok_shape (fmt : Json → Except PyExc String) (o : HttpOutcome)
    (r : ToolResult) (h : canvasBody fmt o = .ok r) :
    (r = ⟨none, pyOfJson (jGet (makeRequest o) "error")⟩ ∧
      jHasKey (makeRequest o) "error" = true) ∨
    (∃ s, r = ⟨some (.str s), none⟩) := by
  unfold canvasBody at h
  by_cases hk : jHasKey (makeRequest o) "error" = true
  · rw [if_pos hk] at h
    injection h with h'
    exact .inl ⟨h'.symm, hk⟩
  · rw [if_neg hk] at h
    cases hf : fmt (makeRequest o) with
    | ok s =>
        rw [hf] at h
        injection h with h'
        exact .inr ⟨s, h'.symm⟩
    | error e => rw [hf] at h; exact Except.noConfusion h

theorem canvasStd_not_bothSome (pre : String) (fmt : Json → Except PyExc String)
    (o : HttpOutcome) : ¬ (canvasStdForward pre fmt o).bothSome := by
  unfold canvasStdForward pyCatch
  cases hcb : canvasBody fmt o with
  | error e => simp [ToolResult.bothSome]
  | ok r =>
      rcases canvasBody_ok_shape fmt o r hcb with ⟨hr, _⟩ | ⟨s, hr⟩ <;>
        subst hr <;> simp [ToolResult.bothSome]

theorem makeRequest_error_member_fail (o : HttpOutcome) (hf : o.isFail) :
    ∃ s, jGet (makeRequest o) "error" = .str s ∧ jHasKey (makeRequest o) "error" = true := by
  cases o with
  | ok body => cases hf
  | notFound => exact ⟨_, rfl, rfl⟩
  | failStatus c t => exact ⟨_, rfl, rfl⟩
  | exc e => exact ⟨_, rfl, rfl⟩

theorem canvasStd_fail_error (pre : String) (fmt : Json → Except PyExc String)
    (o : HttpOutcome) (hf : o.isFail) :
    (canvasStdForward pre fmt o).output = none ∧
    (canvasStdForward pre fmt o).error.isSome = true := by
  obtain ⟨s, hs, hk⟩ := makeRequest_error_member_fail o hf
  unfold canvasStdForward pyCatch canvasBody
  rw [if_pos hk, hs]
  simp [pyOfJson]

theorem canvasStd_bothNone_null_error (pre : String) (fmt : Json → Except PyExc String)
    (o : HttpOutcome) (h : (canvasStdForward pre fmt o).bothNone) :
    ∃ kvs, o = .ok (.obj kvs) ∧ jlookup kvs "error" = some .null := by
  obtain ⟨h1, h2⟩ := h
  cases o with
  | notFound =>
      have hf := (canvasStd_fail_error pre fmt .notFound trivial).2
      rw [h2] at hf; exact Option.noConfusion (Option.isSome_iff_exists.mp hf).choose_spec
  | failStatus c t =>
      have hf := (canvasStd_fail_error pre fmt (.failStatus c t) trivial).2
      rw [h2] at hf; exact Option.noConfusion (Option.isSome_iff_exists.mp hf).choose_spec
  | exc e =>
      have hf := (canvasStd_fail_error pre fmt (.exc e) trivial).2
      rw [h2] at hf; exact Option.noConfusion (Option.isSome_iff_exists.mp hf).choose_spec
  | ok body =>
      unfold canvasStdForward pyCatch at h1 h2
      cases hcb : canvasBody fmt (.ok body) with
      | error e => rw [hcb] at h2; exact Option.noConfusion h2
      | ok r =>
          rw [hcb] at h1 h2
          rcases canvasBody_ok_shape fmt (.ok body) r hcb with ⟨hr, hk⟩ | ⟨s, hr⟩
          · subst hr
            have hnull : jGet (makeRequest (.ok body)) "error" = .null :=
              (pyOfJson_eq_none_iff _).mp h2
            simp only [makeRequest] at hnull hk
            cases body with
            | obj kvs =>
                refine ⟨kvs, rfl, ?_⟩
                simp only [jHasKey] at hk
                simp only [jGet, jGetD] at hnull
                cases hl : jlookup kvs "error" with
                | none => rw [hl] at hk; exact Bool.noConfusion hk
                | some v =>
                    rw [hl] at hnull
                    simp only [Option.getD_some] at hnull
                    exact congrArg some hnull
            | null => simp [jHasKey] at hk
            | bool b => simp [jHasKey] at hk
            | num n => simp [jHasKey] at hk
            | str s => simp [jHasKey] at hk
            | arr xs => simp [jHasKey] at hk
          · subst hr; exact Option.noConfusion h1

theorem canvasStd_exc_converted (pre : String) (fmt : Json → Except PyExc String)
    (o : HttpOutcome) (e : PyExc) (h : canvasBody fmt o = .error e) :
    canvasStdForward pre fmt o = ⟨none, some (.str (pre ++ e.msg))⟩ := by
  unfold canvasStdForward pyCatch
  rw [h]

theorem gradesBody_ok_shape (cid : String) (o1 o2 : HttpOutcome) (r : ToolResult)
    (h : canvasGetGradesBody cid o1 o2 = .ok r) :
    (r = ⟨none, pyOfJson (jGet (makeRequest o1) "error")⟩ ∧
      jHasKey (makeRequest o1) "error" = true) ∨
    (r = ⟨none, pyOfJson (jGet (makeRequest o2) "error")⟩ ∧
      jHasKey (makeRequest o2) "error" = true) ∨
    (∃ s, r = ⟨some (.str s), none⟩) := by
  unfold canvasGetGradesBody at h
  by_cases hk1 : jHasKey (makeRequest o1) "error" = true
  · rw [if_pos hk1] at h
    injection h with h'
    exact .inl ⟨h'.symm, hk1⟩
  · rw [if_neg hk1] at h
    cases hg : pyDictGet (makeRequest o1) "id" with
    | error e => rw [hg] at h; exact Except.noConfusion h
    | ok u =>
        rw [hg] at h
        by_cases hk2 : jHasKey (makeRequest o2) "error" = true
        · rw [if_pos hk2] at h
          injection h with h'
          exact .inr (.inl ⟨h'.symm, hk2⟩)
        · rw [if_neg hk2] at h
          cases hf : fmtGrades cid (makeRequest o2) with
          | ok s =>
              rw [hf] at h
              injection h with h'
              exact .inr (.inr ⟨s, h'.symm⟩)
          | error e => rw [hf] at h; exact Except.noConfusion h

theorem grades_not_bothSome (cid : String) (o1 o2 : HttpOutcome) :
    ¬ (canvasGetGradesForward cid o1 o2).bothSome := by
  unfold canvasGetGradesForward pyCatch
  cases hcb : canvasGetGradesBody cid o1 o2 with
  | error e => simp [ToolResult.bothSome]
  | ok r =>
      rcases gradesBody_ok_shape cid o1 o2 r hcb with ⟨hr, _⟩ | ⟨hr, _⟩ | ⟨s, hr⟩ <;>
        subst hr <;> simp [ToolResult.bothSome]

theorem grades_fail_error (cid : String) (o1 o2 : HttpOutcome) :
    (o1.isFail →
      (canvasGetGradesForward cid o1 o2).output = none ∧
      (canvasGetGradesForward cid o1 o2).error.isSome = true) ∧
    (jHasKey (makeRequest o1) "error" = false → o2.isFail →
      (canvasGetGradesForward cid o1 o2).output = none ∧
      (canvasGetGradesForward cid o1 o2).error.isSome = true) := by
  constructor
  · intro hf
    obtain ⟨s, hs, hk⟩ := makeRequest_error_member_fail o1 hf
    unfold canvasGetGradesForward pyCatch canvasGetGradesBody
    rw [if_pos hk, hs]
    simp [pyOfJson]
  · intro hk1 hf
    obtain ⟨s, hs, hk⟩ := makeRequest_error_member_fail o2 hf
    unfold canvasGetGradesForward pyCatch canvasGetGradesBody
    rw [if_neg (by rw [hk1]; exact Bool.false_ne_true)]
    cases hg : pyDictGet (makeRequest o1) "id" with
    | error e => simp
    | ok u =>
        rw [if_pos hk, hs]
        simp [pyOfJson]

theorem grades_bothNone_null_error (cid : String) (o1 o2 : HttpOutcome)
    (h : (canvasGetGradesForward cid o1 o2).bothNone) :
    (∃ kvs, o1 = .ok (.obj kvs) ∧ jlookup kvs "error" = some .null) ∨
    (∃ kvs, o2 = .ok (.obj kvs) ∧ jlookup kvs "error" = some .null) := by
  obtain ⟨h1, h2⟩ := h
  unfold canvasGetGradesForward pyCatch at h1 h2
  cases hcb : canvasGetGradesBody cid o1 o2 with
  | error e => rw [hcb] at h2; exact Option.noConfusion h2
  | ok r =>
      rw [hcb] at h1 h2
      have nullCase : ∀ o : HttpOutcome,
          jHasKey (makeRequest o) "error" = true →
          jGet (makeRequest o) "error" = .null →
          ∃ kvs, o = .ok (.obj kvs) ∧ jlookup kvs "error" = some .null := by
        intro o hk hnull
        cases o with
        | ok body =>
            simp only [makeRequest] at hk hnull
            cases body with
            | obj kvs =>
                refine ⟨kvs, rfl, ?_⟩
                simp only [jHasKey] at hk
                simp only [jGet, jGetD] at hnull
                cases hl : jlookup kvs "error" with
                | none => rw [hl] at hk; exact Bool.noConfusion hk
                | some v =>
                    rw [hl] at hnull
                    simp only [Option.getD_some] at hnull
                    exact congrArg some hnull
            | null => simp [jHasKey] at hk
            | bool b => simp [jHasKey] at hk
            | num n => simp [jHasKey] at hk
            | str s => simp [jHasKey] at hk
            | arr xs => simp [jHasKey] at hk
        | notFound => exact absurd hnull (by simp [makeRequest, jGet, jGetD, jlookup])
        | failStatus c t => exact absurd hnull (by simp [makeRequest, jGet, jGetD, jlookup])
        | exc e => exact absurd hnull (by simp [makeRequest, jGet, jGetD, jlookup])
      rcases gradesBody_ok_shape cid o1 o2 r hcb with ⟨hr, hk⟩ | ⟨hr, hk⟩ | ⟨s, hr⟩
      · subst hr
        exact .inl (nullCase o1 hk ((pyOfJson_eq_none_iff _).mp h2))
      · subst hr
        exact .inr (nullCase o2 hk ((pyOfJson_eq_none_iff _).mp h2))
      · subst hr; exact Option.noConfusion h1

theorem openaiPrologue_shape (env : OpenAIEnv) :
    openaiPrologue env = none ∨
    ∃ s, openaiPrologue env = some ⟨none, some (.str s)⟩ := by
  unfold openaiPrologue
  cases h1 : env.importOk with
  | false =>
      exact .inr ⟨"OpenAI 库未安装，请运行: pip install openai", by simp [h1]⟩
  | true =>
      by_cases h2 : env.apiKey = none ∨ env.apiKey = some ""
      · exact .inr ⟨"未配置 OPENAI_API_KEY，请在 .env 文件中添加", by simp [h1, h2]⟩
      · exact .inl (by simp [h1, h2])

theorem vsList_exactlyOne (env : OpenAIEnv) (oc : Except PyExc (List VSStore)) :
    (vectorStoreListForward env oc).exactlyOne := by
  unfold vectorStoreListForward
  rcases openaiPrologue_shape env with hp | ⟨s, hp⟩ <;> rw [hp]
  · cases oc with
    | error e => simp [ToolResult.exactlyOne]
    | ok stores =>
        cases stores with
        | nil => simp [ToolResult.exactlyOne]
        | cons a as => simp [ToolResult.exactlyOne]
  · simp [ToolResult.exactlyOne]

theorem vsSearch_exactlyOne (env : OpenAIEnv) (vid q : String) (mr : Int)
    (oc : Except PyExc (List SearchHit)) :
    (vectorStoreSearchForward env vid q mr oc).exactlyOne := by
  unfold vectorStoreSearchForward
  rcases openaiPrologue_shape env with hp | ⟨s, hp⟩ <;> rw [hp]
  · cases oc with
    | error e => simp [ToolResult.exactlyOne]
    | ok hits =>
        cases hits with
        | nil => simp [ToolResult.exactlyOne]
        | cons a as => simp [ToolResult.exactlyOne]
  · simp [ToolResult.exactlyOne]

theorem vsListFiles_exactlyOne (env : OpenAIEnv) (vid : String) (rc : Bool) (lim : Int)
    (oc : Except PyExc (List VSFile)) :
    (vectorStoreListFilesForward env vid rc lim oc).exactlyOne := by
  unfold vectorStoreListFilesForward
  rcases openaiPrologue_shape env with hp | ⟨s, hp⟩ <;> rw [hp]
  · cases oc with
    | error e => simp [ToolResult.exactlyOne]
    | ok files =>
        cases files with
        | nil => simp [ToolResult.exactlyOne]
        | cons a as => simp [ToolResult.exactlyOne]
  · simp [ToolResult.exactlyOne]

theorem vsGetFile_exactlyOne (env : OpenAIEnv) (fid : String) (ml : Int)
    (oc1 : Except PyExc VSFileDetail) (oc2 : Except PyExc FileContentK) :
    (vectorStoreGetFileForward env fid ml oc1 oc2).exactlyOne := by
  unfold vectorStoreGetFileForward
  rcases openaiPrologue_shape env with hp | ⟨s, hp⟩ <;> rw [hp]
  · cases oc1 with
    | error e => simp [ToolResult.exactlyOne]
    | ok info => simp [ToolResult.exactlyOne]
  · simp [ToolResult.exactlyOne]

theorem calc_exactlyOne (expr : String) (oc : Except PyExc Json) :
    (calculatorToolForward expr oc).exactlyOne := by
  unfold calculatorToolForward
  cases oc with
  | ok v => simp [ToolResult.exactlyOne]
  | error e => simp [ToolResult.exactlyOne]

theorem vsList_fail_error (env : OpenAIEnv) (e : PyExc) :
    (vectorStoreListForward env (.error e)).output = none ∧
    (vectorStoreListForward env (.error e)).error.isSome = true := by
  unfold vectorStoreListForward
  rcases openaiPrologue_shape env with hp | ⟨s, hp⟩ <;> rw [hp] <;> simp

theorem vsSearch_fail_error (env : OpenAIEnv) (vid q : String) (mr : Int) (e : PyExc) :
    (vectorStoreSearchForward env vid q mr (.error e)).output = none ∧
    (vectorStoreSearchForward env vid q mr (.error e)).error.isSome = true := by
  unfold vectorStoreSearchForward
  rcases openaiPrologue_shape env with hp | ⟨s, hp⟩ <;> rw [hp] <;> simp

theorem vsListFiles_fail_error (env : OpenAIEnv) (vid : String) (rc : Bool) (lim : Int)
    (e : PyExc) :
    (vectorStoreListFilesForward env vid rc lim (.error e)).output = none ∧
    (vectorStoreListFilesForward env vid rc lim (.error e)).error.isSome = true := by
  unfold vectorStoreListFilesForward
  rcases openaiPrologue_shape env with hp | ⟨s, hp⟩ <;> rw [hp] <;> simp

theorem vsGetFile_fail_error (env : OpenAIEnv) (fid : String) (ml : Int) (e : PyExc)
    (oc2 : Except PyExc FileContentK) :
    (vectorStoreGetFileForward env fid ml (.error e) oc2).output = none ∧
    (vectorStoreGetFileForward env fid ml (.error e) oc2).error.isSome = true := by
  unfold vectorStoreGetFileForward
  rcases openaiPrologue_shape env with hp | ⟨s, hp⟩ <;> rw [hp] <;> simp

theorem exactlyOne_not_bothSome (r : ToolResult) (h : r.exactlyOne) : ¬ r.bothSome := by
  rcases h with ⟨h1, h2⟩ | ⟨h1, h2⟩ <;> intro hb <;> rcases hb with ⟨b1, b2⟩
  · rw [Option.isNone_iff_eq_none] at h2; rw [h2] at b2; exact Bool.noConfusion b2
  · rw [Option.isNone_iff_eq_none] at h1; rw [h1] at b1; exact Bool.noConfusion b1

/-!
## C8 — exactly one of output/error
-/

/-- C8 counterexample: a 200 upstream response with body `{"error": null}`
makes `CanvasGetModules.forward` execute
`return ToolResult(output=None, error=result["error"])` with
`result["error"] = None`, producing a `ToolResult` whose `output` and
`error` are both null — so the exactly-one-of claim fails as stated. -/
theorem C8_exactly_one_counterexample :
    SysProduced (canvasGetModulesForward "101" (.ok (.obj [("error", .null)]))) ∧
    ¬ (canvasGetModulesForward "101" (.ok (.obj [("error", .null)]))).exactlyOne :=
  ⟨SysProduced.getModules "101" _, fun h => by
    rcases h with ⟨h1, -⟩ | ⟨-, h2⟩
    · exact absurd h1 (by decide)
    · exact absurd h2 (by decide)⟩

/-- C8 (amended): for every `ToolResult` produced by any tool `forward` in
the system, `output` and `error` are never both non-null; and they are both
null only in the single degenerate case in which a Canvas request returned
HTTP 200 with a JSON object carrying an explicit `null` `"error"` member
(the vector-store and calculator tools always populate exactly one field). -/
theorem C8_exactly_one_amended :
    (∀ r : ToolResult, SysProduced r → ¬ r.bothSome) ∧
    (∀ (pre : String) (fmt : Json → Except PyExc String) (o : HttpOutcome),
      (canvasStdForward pre fmt o).bothNone →
      ∃ kvs, o = .ok (.obj kvs) ∧ jlookup kvs "error" = some .null) ∧
    (∀ (cid : String) (o1 o2 : HttpOutcome),
      (canvasGetGradesForward cid o1 o2).bothNone →
      (∃ kvs, o1 = .ok (.obj kvs) ∧ jlookup kvs "error" = some .null) ∨
      (∃ kvs, o2 = .ok (.obj kvs) ∧ jlookup kvs "error" = some .null)) ∧
    (∀ env oc, (vectorStoreListForward env oc).exactlyOne) ∧
    (∀ env vid q mr oc, (vectorStoreSearchForward env vid q mr oc).exactlyOne) ∧
    (∀ env vid rc lim oc, (vectorStoreListFilesForward env vid rc lim oc).exactlyOne) ∧
    (∀ env fid ml oc1 oc2, (vectorStoreGetFileForward env fid ml oc1 oc2).exactlyOne) ∧
    (∀ expr oc, (calculatorToolForward expr oc).exactlyOne) := by
  refine ⟨?_, canvasStd_bothNone_null_error, grades_bothNone_null_error,
    vsList_exactlyOne, vsSearch_exactlyOne, vsListFiles_exactlyOne,
    vsGetFile_exactlyOne, calc_exactlyOne⟩
  intro r hr
  cases hr with
  | listCourses es inc o => exact canvasStd_not_bothSome _ _ _
  | getAssignments cid b o => exact canvasStd_not_bothSome _ _ _
  | getModules cid o => exact canvasStd_not_bothSome _ _ _
  | getModuleItems cid mid o => exact canvasStd_not_bothSome _ _ _
  | getFiles cid term o => exact canvasStd_not_bothSome _ _ _
  | getDiscussions cid o => exact canvasStd_not_bothSome _ _ _
  | getAnnouncements codes o => exact canvasStd_not_bothSome _ _ _
  | getCalendarEvents sd ed o => exact canvasStd_not_bothSome _ _ _
  | getGrades cid o1 o2 => exact grades_not_bothSome _ _ _
  | getPages cid o => exact canvasStd_not_bothSome _ _ _
  | getPageContent cid purl o => exact canvasStd_not_bothSome _ _ _
  | getQuizzes cid o => exact canvasStd_not_bothSome _ _ _
  | getTodoItems o => exact canvasStd_not_bothSome _ _ _
  | getUpcomingEvents o => exact canvasStd_not_bothSome _ _ _
  | getGroups o => exact canvasStd_not_bothSome _ _ _
  | getFileInfo fid o => exact canvasStd_not_bothSome _ _ _
  | getFolders cid o => exact canvasStd_not_bothSome _ _ _
  | getFolderFiles fid o => exact canvasStd_not_bothSome _ _ _
  | searchFiles cid term o => exact canvasStd_not_bothSome _ _ _
  | vsList env oc => exact exactlyOne_not_bothSome _ (vsList_exactlyOne env oc)
  | vsSearch env vid q mr oc => exact exactlyOne_not_bothSome _ (vsSearch_exactlyOne env vid q mr oc)
  | vsListFiles env vid rc lim oc =>
      exact exactlyOne_not_bothSome _ (vsListFiles_exactlyOne env vid rc lim oc)
  | vsGetFile env fid ml oc1 oc2 =>
      exact exactlyOne_not_bothSome _ (vsGetFile_exactlyOne env fid ml oc1 oc2)
  | calcTool expr oc => exact exactlyOne_not_bothSome _ (calc_exactlyOne expr oc)

theorem C8_exactly_one_amended_witness :
    ¬ (calculatorToolForward "1+1" (.ok (.num 2))).bothSome :=
  C8_exactly_one_amended.1 _ (SysProduced.calcTool "1+1" (.ok (.num 2)))

/-!
## C9 — failures through the error channel, credential check at construction
-/

/-- C9: `CanvasAPIBase.__init__` raises exactly when `CANVAS_ACCESS_TOKEN`
is missing or empty; every registered Canvas tool `forward` turns an
ordinary request failure (raised exception, 404, other non-200 status) into
a `ToolResult` with `error` set and `output` null; any exception raised
inside a `forward` body is caught and converted, never propagated; and the
vector-store tools convert raised client failures the same way. -/
theorem C9_error_channel :
    (∀ env : CanvasEnv, (∃ e, canvasAPIBaseInit env = .error e) ↔
      (env.accessToken = none ∨ env.accessToken = some "")) ∧
    (∀ (pre : String) (fmt : Json → Except PyExc String) (o : HttpOutcome), o.isFail →
      (canvasStdForward pre fmt o).output = none ∧
      (canvasStdForward pre fmt o).error.isSome = true) ∧
    (∀ (pre : String) (fmt : Json → Except PyExc String) (o : HttpOutcome) (e : PyExc),
      canvasBody fmt o = .error e →
      canvasStdForward pre fmt o = ⟨none, some (.str (pre ++ e.msg))⟩) ∧
    (∀ (cid : String) (o1 o2 : HttpOutcome), o1.isFail →
      (canvasGetGradesForward cid o1 o2).output = none ∧
      (canvasGetGradesForward cid o1 o2).error.isSome = true) ∧
    (∀ (cid : String) (o1 o2 : HttpOutcome),
      jHasKey (makeRequest o1) "error" = false → o2.isFail →
      (canvasGetGradesForward cid o1 o2).output = none ∧
      (canvasGetGradesForward cid o1 o2).error.isSome = true) ∧
    (∀ env (e : PyExc), (vectorStoreListForward env (.error e)).output = none ∧
      (vectorStoreListForward env (.error e)).error.isSome = true) ∧
    (∀ env vid q mr (e : PyExc),
      (vectorStoreSearchForward env vid q mr (.error e)).output = none ∧
      (vectorStoreSearchForward env vid q mr (.error e)).error.isSome = true) ∧
    (∀ env vid rc lim (e : PyExc),
      (vectorStoreListFilesForward env vid rc lim (.error e)).output = none ∧
      (vectorStoreListFilesForward env vid rc lim (.error e)).error.isSome = true) ∧
    (∀ env fid ml (e : PyExc) oc2,
      (vectorStoreGetFileForward env fid ml (.error e) oc2).output = none ∧
      (vectorStoreGetFileForward env fid ml (.error e) oc2).error.isSome = true) ∧
    (∀ (es inc : String) (o : HttpOutcome), o.isFail →
      (canvasListCoursesForward es inc o).error.isSome = true) ∧
    (∀ (cid : String) (b : Bool) (o : HttpOutcome), o.isFail →
      (canvasGetAssignmentsForward cid b o).error.isSome = true) ∧
    (∀ (cid : String) (o : HttpOutcome), o.isFail →
      (canvasGetModulesForward cid o).error.isSome = true) ∧
    (∀ (cid mid : String) (o : HttpOutcome), o.isFail →
      (canvasGetModuleItemsForward cid mid o).error.isSome = true) ∧
    (∀ (cid term : String) (o : HttpOutcome), o.isFail →
      (canvasGetFilesForward cid term o).error.isSome = true) ∧
    (∀ (cid : String) (o : HttpOutcome), o.isFail →
      (canvasGetDiscussionsForward cid o).error.isSome = true) ∧
    (∀ (codes : String) (o : HttpOutcome), o.isFail →
      (canvasGetAnnouncementsForward codes o).error.isSome = true) ∧
    (∀ (sd ed : String) (o : HttpOutcome), o.isFail →
      (canvasGetCalendarEventsForward sd ed o).error.isSome = true) ∧
    (∀ (cid : String) (o : HttpOutcome), o.isFail →
      (canvasGetPagesForward cid o).error.isSome = true) ∧
    (∀ (cid purl : String) (o : HttpOutcome), o.isFail →
      (canvasGetPageContentForward cid purl o).error.isSome = true) ∧
    (∀ (cid : String) (o : HttpOutcome), o.isFail →
      (canvasGetQuizzesForward cid o).error.isSome = true) ∧
    (∀ o : HttpOutcome, o.isFail → (canvasGetTodoItemsForward o).error.isSome = true) ∧
    (∀ o : HttpOutcome, o.isFail → (canvasGetUpcomingEventsForward o).error.isSome = true) ∧
    (∀ o : HttpOutcome, o.isFail → (canvasGetGroupsForward o).error.isSome = true) ∧
    (∀ (fid : String) (o : HttpOutcome), o.isFail →
      (canvasGetFileInfoForward fid o).error.isSome = true) ∧
    (∀ (cid : String) (o : HttpOutcome), o.isFail →
      (canvasGetFoldersForward cid o).error.isSome = true) ∧
    (∀ (fid : String) (o : HttpOutcome), o.isFail →
      (canvasGetFolderFilesForward fid o).error.isSome = true) ∧
    (∀ (cid term : String) (o : HttpOutcome), o.isFail →
      (canvasSearchFilesForward cid term o).error.isSome = true) := by
  refine ⟨?_, canvasStd_fail_error, canvasStd_exc_converted,
    fun cid o1 o2 h => (grades_fail_error cid o1 o2).1 h,
    fun cid o1 o2 h1 h2 => (grades_fail_error cid o1 o2).2 h1 h2,
    vsList_fail_error, vsSearch_fail_error, vsListFiles_fail_error, vsGetFile_fail_error,
    fun es inc o hf => (canvasStd_fail_error _ _ o hf).2,
    fun cid b o hf => (canvasStd_fail_error _ _ o hf).2,
    fun cid o hf => (canvasStd_fail_error _ _ o hf).2,
    fun cid mid o hf => (canvasStd_fail_error _ _ o hf).2,
    fun cid term o hf => (canvasStd_fail_error _ _ o hf).2,
    fun cid o hf => (canvasStd_fail_error _ _ o hf).2,
    fun codes o hf => (canvasStd_fail_error _ _ o hf).2,
    fun sd ed o hf => (canvasStd_fail_error _ _ o hf).2,
    fun cid o hf => (canvasStd_fail_error _ _ o hf).2,
    fun cid purl o hf => (canvasStd_fail_error _ _ o hf).2,
    fun cid o hf => (canvasStd_fail_error _ _ o hf).2,
    fun o hf => (canvasStd_fail_error _ _ o hf).2,
    fun o hf => (canvasStd_fail_error _ _ o hf).2,
    fun o hf => (canvasStd_fail_error _ _ o hf).2,
    fun fid o hf => (canvasStd_fail_error _ _ o hf).2,
    fun cid o hf => (canvasStd_fail_error _ _ o hf).2,
    fun fid o hf => (canvasStd_fail_error _ _ o hf).2,
    fun cid term o hf => (canvasStd_fail_error _ _ o hf).2⟩
  intro env
  unfold canvasAPIBaseInit
  cases ht : env.accessToken with
  | none => simp
  | some tok =>
      by_cases h0 : tok = ""
      · subst h0; simp
      · simp [h0]

theorem C9_error_channel_witness :
    (canvasGetGroupsForward HttpOutcome.notFound).error.isSome = true :=
  (C9_error_channel.2.1 "获取小组列表失败: " fmtGroups HttpOutcome.notFound trivial).2

/-!
## C3 — authenticate_payload accepts iff password and TOTP check out
-/

theorem authenticatePayload_badpw (env : AuthEnv) (payload : Json)
    (hp : env.authPassword ≠ "")
    (hpw : ¬ isStrVal (pyOfJson (jGet payload "password")) env.authPassword = true) :
    authenticatePayload env payload = (false, some "Invalid password.") := by
  unfold authenticatePayload
  rw [if_neg hp, if_pos hpw]

theorem authenticatePayload_disabled (env : AuthEnv) (payload : Json)
    (hp : env.authPassword ≠ "")
    (hpw : isStrVal (pyOfJson (jGet payload "password")) env.authPassword = true)
    (hd : env.totpDisabled = true) :
    authenticatePayload env payload = (true, none) := by
  unfold authenticatePayload
  rw [if_neg hp, if_neg (not_not_intro hpw), if_pos hd]

theorem authenticatePayload_totp (env : AuthEnv) (payload : Json)
    (hp : env.authPassword ≠ "")
    (hpw : isStrVal (pyOfJson (jGet payload "password")) env.authPassword = true)
    (hd : env.totpDisabled = false)
    (sec : String) (hsec : env.totpSecret = some sec) (hsne : sec ≠ "")
    (hctor : env.totpCtorOk = true)
    (c : String) (htc : pyOfJson (jGet payload "totp") = some (.str c))
    (htr : pyStrip c ≠ "") :
    authenticatePayload env payload =
      (env.verifyWindow1 c,
        if env.verifyWindow1 c then none else some "Invalid or expired TOTP code.") := by
  unfold authenticatePayload
  rw [if_neg hp, if_neg (not_not_intro hpw), if_neg (by simp [hd]), htc]
  simp only [hsec, hctor]
  rw [if_neg htr, if_neg hsne]
  cases hver : env.verifyWindow1 c <;> simp [hver]

theorem authenticatePayload_missing (env : AuthEnv) (payload : Json)
    (hp : env.authPassword ≠ "")
    (hpw : isStrVal (pyOfJson (jGet payload "password")) env.authPassword = true)
    (hd : env.totpDisabled = false)
    (hmiss : ∀ c, pyOfJson (jGet payload "totp") = some (.str c) → pyStrip c = "") :
    (authenticatePayload env payload).1 = false ∧
    ∃ r, (authenticatePayload env payload).2 = some r ∧ r ≠ "" := by
  unfold authenticatePayload
  rw [if_neg hp, if_neg (not_not_intro hpw), if_neg (by simp [hd])]
  cases htc : pyOfJson (jGet payload "totp") with
  | none => exact ⟨rfl, "Missing TOTP code.", rfl, by decide⟩
  | some v =>
      cases v with
      | str c =>
          have htr := hmiss c htc
          refine ⟨?_, "Missing TOTP code.", ?_, by decide⟩ <;> simp [htr]
      | null => exact ⟨rfl, "Missing TOTP code.", rfl, by decide⟩
      | bool b => exact ⟨rfl, "Missing TOTP code.", rfl, by decide⟩
      | num n => exact ⟨rfl, "Missing TOTP code.", rfl, by decide⟩
      | arr xs => exact ⟨rfl, "Missing TOTP code.", rfl, by decide⟩
      | obj kvs => exact ⟨rfl, "Missing TOTP code.", rfl, by decide⟩

/-- C3: with a configured password and (when TOTP is enabled) a configured
valid TOTP secret, `authenticate_payload` accepts exactly when the payload's
password equals the configured secret and — unless TOTP checking is
disabled — the payload carries a non-empty TOTP code string that verifies
with a validity window of one step (`verify(code, valid_window=1)`); every
failing case returns a non-empty error reason. -/
theorem C3_authenticate_accepts_iff
    (env : AuthEnv) (hp : env.authPassword ≠ "")
    (hs : env.totpDisabled = false →
      ∃ sec, env.totpSecret = some sec ∧ sec ≠ "" ∧ env.totpCtorOk = true)
    (hv : ∀ c, pyStrip c = "" → env.verifyWindow1 c = false)
    (payload : Json) :
    ((authenticatePayload env payload).1 = true ↔
      (pyOfJson (jGet payload "password") = some (.str env.authPassword) ∧
        (env.totpDisabled = true ∨
          ∃ c, pyOfJson (jGet payload "totp") = some (.str c) ∧ c ≠ "" ∧
            env.verifyWindow1 c = true))) ∧
    ((authenticatePayload env payload).1 = false →
      ∃ r, (authenticatePayload env payload).2 = some r ∧ r ≠ "") := by
  have hpweq := isStrVal_eq_true_iff (pyOfJson (jGet payload "password")) env.authPassword
  by_cases hpw : isStrVal (pyOfJson (jGet payload "password")) env.authPassword = true
  case neg =>
    rw [authenticatePayload_badpw env payload hp hpw]
    exact ⟨⟨fun h => absurd h (by simp), fun h => absurd (hpweq.mpr h.1) hpw⟩,
      fun _ => ⟨"Invalid password.", rfl, by decide⟩⟩
  case pos =>
    cases hd : env.totpDisabled with
    | true =>
        rw [authenticatePayload_disabled env payload hp hpw hd]
        exact ⟨⟨fun _ => ⟨hpweq.mp hpw, .inl rfl⟩, fun _ => rfl⟩, fun h => absurd h (by simp)⟩
    | false =>
        obtain ⟨sec, hsec, hsne, hctor⟩ := hs hd
        by_cases hstr : ∃ c, pyOfJson (jGet payload "totp") = some (.str c) ∧ pyStrip c ≠ ""
        · obtain ⟨c, htc, htr⟩ := hstr
          rw [authenticatePayload_totp env payload hp hpw hd sec hsec hsne hctor c htc htr]
          cases hver : env.verifyWindow1 c with
          | true =>
              refine ⟨⟨fun _ => ⟨hpweq.mp hpw,
                .inr ⟨c, htc, fun hceq => htr (by rw [hceq]; decide), hver⟩⟩,
                fun _ => rfl⟩, fun h => absurd h (by simp)⟩
          | false =>
              refine ⟨⟨fun h => absurd h (by simp), fun h => ?_⟩,
                fun _ => ⟨"Invalid or expired TOTP code.", rfl, by decide⟩⟩
              rcases h.2 with hdisj | ⟨c', hc', -, hver'⟩
              · exact Bool.noConfusion hdisj
              · rw [htc] at hc'
                have hcc : c = c' := by simpa using hc'
                rw [← hcc, hver] at hver'
                exact Bool.noConfusion hver'
        · have hmiss : ∀ c, pyOfJson (jGet payload "totp") = some (.str c) → pyStrip c = "" :=
            fun c hc => by by_contra hne; exact hstr ⟨c, hc, hne⟩
          obtain ⟨hfalse, r, hr, hrne⟩ :=
            authenticatePayload_missing env payload hp hpw hd hmiss
          refine ⟨⟨fun h => ?_, fun h => ?_⟩, fun _ => ⟨r, hr, hrne⟩⟩
          · rw [hfalse] at h; exact Bool.noConfusion h
          · rcases h.2 with hdisj | ⟨c', hc', -, hver'⟩
            · exact Bool.noConfusion hdisj
            · rw [hv c' (hmiss c' hc')] at hver'
              exact Bool.noConfusion hver'

/-- A concrete authentication environment for the C3 witness. -/
def envC3 : AuthEnv := ⟨"pw", false, some "SECRET", true, fun c => c == "123456"⟩

theorem C3_authenticate_accepts_iff_witness :
    (authenticatePayload envC3
      (.obj [("password", .str "pw"), ("totp", .str "123456")])).1 = true :=
  ((C3_authenticate_accepts_iff envC3 (by decide)
      (fun _ => ⟨"SECRET", rfl, by decide, rfl⟩)
      (fun c h => by
        cases hc : c == "123456" with
        | false => exact hc
        | true => exact absurd h (by rw [eq_of_beq hc]; decide))
      (.obj [("password", .str "pw"), ("totp", .str "123456")])).1).mpr
    ⟨rfl, .inr ⟨"123456", rfl, by decide, rfl⟩⟩

/-!
## C4 — session TTL expiry, resumption, fresh auth
-/

theorem lookup_filter_of_lookup (P : String × Session → Bool) (st : SessionStore)
    (key : String) (sess : Session)
    (h : List.lookup key st = some sess) (hP : P (key, sess) = true) :
    List.lookup key (st.filter P) = some sess := by
  induction st with
  | nil => cases h
  | cons p rest ih =>
      obtain ⟨k, v⟩ := p
      rw [List.lookup_cons] at h
      by_cases hk : (key == k) = true
      · rw [hk] at h
        injection h with h'
        subst h'
        have hkeq : key = k := eq_of_beq hk
        subst hkeq
        rw [List.filter_cons, if_pos hP, List.lookup_cons]
        simp
      · have hkf : (key == k) = false := by
          cases hb : (key == k) with
          | true => exact absurd hb hk
          | false => rfl
        rw [hkf] at h
        rw [List.filter_cons]
        by_cases hPv : P (k, v) = true
        · rw [if_pos hPv, List.lookup_cons, hkf]
          exact ih h
        · rw [if_neg hPv]
          exact ih h

theorem lookup_filter_none (P : String × Session → Bool) (st : SessionStore) (key : String)
    (h : ∀ p ∈ st, p.1 = key → P p = false) :
    List.lookup key (st.filter P) = none := by
  induction st with
  | nil => rfl
  | cons p rest ih =>
      obtain ⟨k, v⟩ := p
      have hrest : ∀ q ∈ rest, q.1 = key → P q = false :=
        fun q hq hqk => h q (List.mem_cons_of_mem _ hq) hqk
      rw [List.filter_cons]
      by_cases hPv : P (k, v) = true
      · have hk : ¬ (key == k) = true := by
          intro hb
          have hkeq : k = key := (eq_of_beq hb).symm
          have := h (k, v) (List.mem_cons_self _ _) hkeq
          rw [this] at hPv
          exact Bool.noConfusion hPv
        have hkf : (key == k) = false := by
          cases hb : (key == k) with
          | true => exact absurd hb hk
          | false => rfl
        rw [if_pos hPv, List.lookup_cons, hkf]
        exact ih hrest
      · rw [if_neg hPv]
        exact ih hrest

theorem lookup_storeSet_self (st : SessionStore) (k : String) (v : Session) :
    List.lookup k (storeSet st k v) = some v := by
  unfold storeSet
  induction st with
  | nil => simp [List.lookup_cons]
  | cons p rest ih =>
      obtain ⟨k2, v2⟩ := p
      rw [List.filter_cons]
      by_cases hk : (decide (k2 ≠ k)) = true
      · rw [if_pos hk, List.cons_append, List.lookup_cons]
        have hne : k2 ≠ k := of_decide_eq_true hk
        have hkf : (k == k2) = false := by
          cases hb : (k == k2) with
          | true => exact absurd (eq_of_beq hb).symm hne
          | false => rfl
        rw [hkf]
        exact ih
      · rw [if_neg hk]
        exact ih

theorem getSession_expired (ttl now : Int) (st : SessionStore) (key : String)
    (httl : 0 < ttl)
    (hexp : ∀ p ∈ st, p.1 = key → now - p.2.lastSeen > ttl) :
    getSession ttl now st key = (pruneSessions ttl now st, none) := by
  have hl : List.lookup key (pruneSessions ttl now st) = none := by
    unfold pruneSessions
    rw [if_neg (by omega)]
    exact lookup_filter_none _ st key (fun p hp hpk => by simp [hexp p hp hpk])
  unfold getSession
  simp only [hl]

theorem getSession_found (ttl now : Int) (st : SessionStore) (key : String) (sess : Session)
    (hget : List.lookup key st = some sess)
    (hvalid : ¬ (now - sess.lastSeen > ttl)) :
    getSession ttl now st key =
      (storeSet (pruneSessions ttl now st) key ⟨sess.created, now, sess.pendingCourses⟩,
       some ⟨sess.created, now, sess.pendingCourses⟩) := by
  have hlk : List.lookup key (pruneSessions ttl now st) = some sess := by
    unfold pruneSessions
    by_cases h0 : ttl ≤ 0
    · rw [if_pos h0]; exact hget
    · rw [if_neg h0]
      exact lookup_filter_of_lookup _ st key sess hget (by simp [hvalid])
  unfold getSession
  simp only [hlk]

theorem handlerStep_unauth (env : GatewayEnv) (now : Int) (st : SessionStore)
    (conn : ConnState) (payload : Json) (hconn : conn.authenticated = false) :
    handlerStep env now st conn (.json payload) =
      handlerStepUnauthed env now st conn payload := by
  unfold handlerStep
  rw [hconn]
  simp

theorem handlerStep_authRequired (env : GatewayEnv) (now : Int) (st : SessionStore)
    (conn : ConnState) (kvs : List (String × Json))
    (hconn : conn.authenticated = false)
    (hty : isStrVal (pyOfJson (jGet (.obj kvs) "type")) "auth" = false) :
    handlerStep env now st conn (.json (.obj kvs)) =
      { reply := some (errObj "Authentication required."), conn := conn, store := st,
        action := .stop, routed := false } := by
  rw [handlerStep_unauth env now st conn _ hconn]
  unfold handlerStepUnauthed
  rw [pyDictGet_obj kvs "type"]
  simp only [hty]
  rfl

theorem handlerStep_sessionKey (env : GatewayEnv) (now : Int) (st : SessionStore)
    (conn : ConnState) (key : String)
    (hconn : conn.authenticated = false)
    (hstrip : pyStrip key = key) (hne : key ≠ "") :
    handlerStep env now st conn
        (.json (.obj [("type", .str "auth"), ("session_key", .str key)])) =
      (match (getSession env.ttl now st key).2 with
       | none =>
           { reply := some (errObj "Invalid or expired session_key."), conn := conn,
             store := (getSession env.ttl now st key).1, action := .stop, routed := false }
       | some s =>
           { reply := some (authReply env.ttl key),
             conn := { authenticated := true, pendingCourses := s.pendingCourses,
                       sessionKey := some key, sessionData := some s },
             store := (getSession env.ttl now st key).1, action := .cont,
             routed := false }) := by
  rw [handlerStep_unauth env now st conn _ hconn]
  unfold handlerStepUnauthed
  have h1 : pyDictGet (Json.obj [("type", Json.str "auth"), ("session_key", Json.str key)])
      "type" = .ok (some (.str "auth")) := rfl
  have h2 : pyOfJson (jGet (Json.obj [("type", Json.str "auth"),
      ("session_key", Json.str key)]) "session_key") = some (.str key) := rfl
  simp only [h1, h2, hstrip]
  rw [if_neg (by decide : ¬ (¬ isStrVal (some (Json.str "auth")) "auth" = true)),
    if_pos hne]

theorem handlerStep_freshAuth (env : GatewayEnv) (now : Int) (st : SessionStore)
    (conn : ConnState) (kvs : List (String × Json))
    (hconn : conn.authenticated = false)
    (hty : isStrVal (pyOfJson (jGet (.obj kvs) "type")) "auth" = true)
    (hsk : ∀ s, pyOfJson (jGet (.obj kvs) "session_key") = some (.str s) → pyStrip s = "") :
    handlerStep env now st conn (.json (.obj kvs)) =
      (if (authenticatePayload env.auth (.obj kvs)).1 then
        { reply := some (authReply env.ttl env.freshKey),
          conn := { authenticated := true, pendingCourses := none,
                    sessionKey := some env.freshKey, sessionData := some ⟨now, now, none⟩ },
          store := storeSet (pruneSessions env.ttl now st) env.freshKey ⟨now, now, none⟩,
          action := .cont, routed := false }
      else
        { reply := some (errObj ((authenticatePayload env.auth (.obj kvs)).2.getD "")),
          conn := conn, store := st, action := .stop, routed := false }) := by
  rw [handlerStep_unauth env now st conn _ hconn]
  unfold handlerStepUnauthed
  rw [pyDictGet_obj kvs "type"]
  simp only [hty]
  simp only [not_true, if_false]
  cases hsks : pyOfJson (jGet (Json.obj kvs) "session_key") with
  | none => cases hap : (authenticatePayload env.auth (.obj kvs)).1 <;> rfl
  | some v =>
      cases v with
      | str s =>
          have hse : pyStrip s = "" := hsk s hsks
          simp only [hse]
          cases hap : (authenticatePayload env.auth (.obj kvs)).1 <;> rfl
      | null => cases hap : (authenticatePayload env.auth (.obj kvs)).1 <;> rfl
      | bool b => cases hap : (authenticatePayload env.auth (.obj kvs)).1 <;> rfl
      | num n => cases hap : (authenticatePayload env.auth (.obj kvs)).1 <;> rfl
      | arr xs => cases hap : (authenticatePayload env.auth (.obj kvs)).1 <;> rfl
      | obj kvs2 => cases hap : (authenticatePayload env.auth (.obj kvs)).1 <;> rfl

/-- C4: in multi-session mode (positive idle TTL), presenting a session key
whose idle time exceeds the TTL is rejected with
"Invalid or expired session_key." and the handler stops; a valid unexpired
key resumes the session, restores its pending course catalog, and advances
its last-activity time to `now`; and a fresh password+TOTP auth that
`authenticate_payload` accepts mints and stores a new session key. -/
theorem C4_session_ttl :
    (∀ (env : GatewayEnv) (now : Int) (st : SessionStore) (conn : ConnState) (key : String),
      conn.authenticated = false → pyStrip key = key → key ≠ "" →
      0 < env.ttl →
      (∀ p ∈ st, p.1 = key → now - p.2.lastSeen > env.ttl) →
      (handlerStep env now st conn (.json (.obj [("type", .str "auth"),
          ("session_key", .str key)]))).reply =
        some (errObj "Invalid or expired session_key.") ∧
      (handlerStep env now st conn (.json (.obj [("type", .str "auth"),
          ("session_key", .str key)]))).action = .stop) ∧
    (∀ (env : GatewayEnv) (now : Int) (st : SessionStore) (conn : ConnState)
        (key : String) (sess : Session),
      conn.authenticated = false → pyStrip key = key → key ≠ "" →
      List.lookup key st = some sess → ¬ (now - sess.lastSeen > env.ttl) →
      sess.lastSeen ≤ now →
      (handlerStep env now st conn (.json (.obj [("type", .str "auth"),
          ("session_key", .str key)]))).reply = some (authReply env.ttl key) ∧
      (handlerStep env now st conn (.json (.obj [("type", .str "auth"),
          ("session_key", .str key)]))).action = .cont ∧
      (handlerStep env now st conn (.json (.obj [("type", .str "auth"),
          ("session_key", .str key)]))).conn.authenticated = true ∧
      (handlerStep env now st conn (.json (.obj [("type", .str "auth"),
          ("session_key", .str key)]))).conn.pendingCourses = sess.pendingCourses ∧
      List.lookup key (handlerStep env now st conn (.json (.obj [("type", .str "auth"),
          ("session_key", .str key)]))).store =
        some ⟨sess.created, now, sess.pendingCourses⟩ ∧
      sess.lastSeen ≤ now) ∧
    (∀ (env : GatewayEnv) (now : Int) (st : SessionStore) (conn : ConnState)
        (kvs : List (String × Json)),
      conn.authenticated = false →
      isStrVal (pyOfJson (jGet (.obj kvs) "type")) "auth" = true →
      (∀ s, pyOfJson (jGet (.obj kvs) "session_key") = some (.str s) → pyStrip s = "") →
      (authenticatePayload env.auth (.obj kvs)).1 = true →
      (handlerStep env now st conn (.json (.obj kvs))).reply =
        some (authReply env.ttl env.freshKey) ∧
      (handlerStep env now st conn (.json (.obj kvs))).action = .cont ∧
      (handlerStep env now st conn (.json (.obj kvs))).conn.authenticated = true ∧
      List.lookup env.freshKey (handlerStep env now st conn (.json (.obj kvs))).store =
        some ⟨now, now, none⟩) := by
  refine ⟨?_, ?_, ?_⟩
  · intro env now st conn key hconn hstrip hne httl hexp
    rw [handlerStep_sessionKey env now st conn key hconn hstrip hne,
      getSession_expired env.ttl now st key httl hexp]
    exact ⟨rfl, rfl⟩
  · intro env now st conn key sess hconn hstrip hne hget hvalid hmono
    rw [handlerStep_sessionKey env now st conn key hconn hstrip hne,
      getSession_found env.ttl now st key sess hget hvalid]
    exact ⟨rfl, rfl, rfl, rfl, lookup_storeSet_self _ _ _, hmono⟩
  · intro env now st conn kvs hconn hty hsk hap
    rw [handlerStep_freshAuth env now st conn kvs hconn hty hsk, if_pos hap]
    exact ⟨rfl, rfl, rfl, lookup_storeSet_self _ _ _⟩

/-- A concrete gateway environment for witnesses: a stub agent, stub
downloader collaborators, password-only auth, one-hour TTL. -/
def stubGatewayEnv : GatewayEnv :=
  ⟨.ok (), fun _ => .ok "answer", ⟨.ok [], .ok (), .null⟩,
   ⟨"pw", true, none, false, fun _ => false⟩, 3600, "fresh-key"⟩

theorem C4_session_ttl_witness :
    (handlerStep stubGatewayEnv 10000 [("k", ⟨0, 0, none⟩)] initialConn
        (.json (.obj [("type", .str "auth"), ("session_key", .str "k")]))).reply =
      some (errObj "Invalid or expired session_key.") ∧
    (handlerStep stubGatewayEnv 10000 [("k", ⟨0, 0, none⟩)] initialConn
        (.json (.obj [("type", .str "auth"), ("session_key", .str "k")]))).action =
      .stop :=
  C4_session_ttl.1 stubGatewayEnv 10000 [("k", ⟨0, 0, none⟩)] initialConn "k"
    rfl (by decide) (by decide) (by decide)
    (fun p hp _ => by rcases List.mem_singleton.mp hp with rfl; decide)

/-!
## C5 — pre-authentication gating (corrected)
-/

/-- C5 counterexample: the first message `42` — valid JSON, not an auth
message — does not get the authentication-required reply: `payload.get`
raises `AttributeError`, nothing is sent, and the exception escapes the
handler (lines 331–342 guard only `json.JSONDecodeError`). -/
theorem C5_auth_gating_counterexample :
    (handlerStep stubGatewayEnv 0 [] initialConn (.json (.num 42))).reply = none ∧
    (handlerStep stubGatewayEnv 0 [] initialConn (.json (.num 42))).action =
      .crash (pyErr "'int' object has no attribute 'get'") ∧
    (handlerStep stubGatewayEnv 0 [] initialConn (.json (.num 42))).routed = false :=
  ⟨rfl, rfl, rfl⟩

/-- C5 (amended): any pre-authentication JSON-object message whose `type`
member is not the string `"auth"` receives
`{"error": "Authentication required."}`, the handler breaks out of the
message loop (closing the connection), and neither the message router nor
the agent/tool layer is ever invoked; the session store is untouched. -/
theorem C5_auth_gating_amended (env : GatewayEnv) (now : Int) (st : SessionStore)
    (conn : ConnState) (kvs : List (String × Json))
    (hconn : conn.authenticated = false)
    (hty : isStrVal (pyOfJson (jGet (.obj kvs) "type")) "auth" = false) :
    (handlerStep env now st conn (.json (.obj kvs))).reply =
      some (errObj "Authentication required.") ∧
    (handlerStep env now st conn (.json (.obj kvs))).action = .stop ∧
    (handlerStep env now st conn (.json (.obj kvs))).routed = false ∧
    (handlerStep env now st conn (.json (.obj kvs))).store = st := by
  rw [handlerStep_authRequired env now st conn kvs hconn hty]
  exact ⟨rfl, rfl, rfl, rfl⟩

theorem C5_auth_gating_amended_witness :
    (handlerStep stubGatewayEnv 0 [] initialConn
        (.json (.obj [("type", .str "chat"), ("query", .str "hi")]))).reply =
      some (errObj "Authentication required.") ∧
    (handlerStep stubGatewayEnv 0 [] initialConn
        (.json (.obj [("type", .str "chat"), ("query", .str "hi")]))).action = .stop ∧
    (handlerStep stubGatewayEnv 0 [] initialConn
        (.json (.obj [("type", .str "chat"), ("query", .str "hi")]))).routed = false ∧
    (handlerStep stubGatewayEnv 0 [] initialConn
        (.json (.obj [("type", .str "chat"), ("query", .str "hi")]))).store = [] :=
  C5_auth_gating_amended stubGatewayEnv 0 [] initialConn
    [("type", .str "chat"), ("query", .str "hi")] rfl (by decide)

/-!
## C6 — recoverable per-message errors keep the connection open
-/

theorem handlerRun_cons (env : GatewayEnv) (now : Int) (st : SessionStore)
    (conn : ConnState) (m : RawMsg) (rest : List RawMsg) :
    handlerRun env now st conn (m :: rest) =
      (match (handlerStep env now st conn m).reply with
       | some j => [j]
       | none => []) ++
      (match (handlerStep env now st conn m).action with
       | .cont => handlerRun env now (handlerStep env now st conn m).store
           (handlerStep env now st conn m).conn rest
       | _ => []) := rfl

theorem handlerStep_authed_error (env : GatewayEnv) (now : Int) (st : SessionStore)
    (conn : ConnState) (payload : Json) (e : PyExc)
    (hconn : conn.authenticated = true)
    (hmsg : handleMessage env payload conn.pendingCourses = .error e) :
    (handlerStep env now st conn (.json payload)).reply = some (errObj e.msg) ∧
    (handlerStep env now st conn (.json payload)).action = .cont ∧
    (handlerStep env now st conn (.json payload)).conn.pendingCourses = none := by
  have hstep : handlerStep env now st conn (.json payload) =
      handlerStepAuthed env now st conn payload := by
    unfold handlerStep
    rw [hconn]
    simp
  rw [hstep]
  unfold handlerStepAuthed
  rw [hmsg]
  cases hsk : conn.sessionKey with
  | none => exact ⟨rfl, rfl, rfl⟩
  | some key =>
      cases hsd : conn.sessionData with
      | none => exact ⟨rfl, rfl, rfl⟩
      | some data =>
          dsimp only
          by_cases hk : key ≠ ""
          · rw [if_pos hk]; exact ⟨rfl, rfl, rfl⟩
          · rw [if_neg hk]; exact ⟨rfl, rfl, rfl⟩

/-- C6: after authentication, a frame that is not valid JSON is answered
with `{"error": "Invalid JSON payload."}` and the loop continues (the next
frames are still processed, with unchanged state); and an exception raised
while routing a message is caught at the gateway boundary, answered with
`{"error": str(exception)}`, and the loop also continues. -/
theorem C6_gateway_error_recovery :
    (∀ (env : GatewayEnv) (now : Int) (st : SessionStore) (conn : ConnState) (text : String),
      handlerStep env now st conn (.malformed text) =
        { reply := some (errObj "Invalid JSON payload."), conn := conn, store := st,
          action := .cont, routed := false }) ∧
    (∀ (env : GatewayEnv) (now : Int) (st : SessionStore) (conn : ConnState)
        (text : String) (rest : List RawMsg),
      handlerRun env now st conn (.malformed text :: rest) =
        errObj "Invalid JSON payload." :: handlerRun env now st conn rest) ∧
    (∀ (env : GatewayEnv) (now : Int) (st : SessionStore) (conn : ConnState)
        (payload : Json) (e : PyExc),
      conn.authenticated = true →
      handleMessage env payload conn.pendingCourses = .error e →
      (handlerStep env now st conn (.json payload)).reply = some (errObj e.msg) ∧
      (handlerStep env now st conn (.json payload)).action = .cont ∧
      (handlerStep env now st conn (.json payload)).conn.pendingCourses = none) ∧
    (∀ (env : GatewayEnv) (now : Int) (st : SessionStore) (conn : ConnState)
        (payload : Json) (e : PyExc) (rest : List RawMsg),
      conn.authenticated = true →
      handleMessage env payload conn.pendingCourses = .error e →
      handlerRun env now st conn (.json payload :: rest) =
        errObj e.msg ::
          handlerRun env now (handlerStep env now st conn (.json payload)).store
            (handlerStep env now st conn (.json payload)).conn rest) := by
  refine ⟨fun _ _ _ _ _ => rfl, ?_, handlerStep_authed_error, ?_⟩
  · intro env now st conn text rest
    rw [handlerRun_cons]
    rfl
  · intro env now st conn payload e rest hconn hmsg
    obtain ⟨h1, h2, -⟩ := handlerStep_authed_error env now st conn payload e hconn hmsg
    rw [handlerRun_cons, h1, h2]
    rfl

theorem C6_gateway_error_recovery_witness :
    handlerRun stubGatewayEnv 0 [] initialConn [.malformed "not json"] =
      [errObj "Invalid JSON payload."] :=
  C6_gateway_error_recovery.2.1 stubGatewayEnv 0 [] initialConn "not json" []

/-!
## C7 / C10 — post-authentication message routing
-/

theorem jIsStr_eq_true_iff (v : Json) (s : String) : jIsStr v s = true ↔ v = .str s := by
  cases v <;> simp [jIsStr]

/-- The effective type `message.get("type") or "chat"` of a dict payload. -/
def effType (kvs : List (String × Json)) : Json :=
  match pyOfJson (jGet (.obj kvs) "type") with
  | some v => if pyTruthy v then v else .str "chat"
  | none => .str "chat"

theorem handleMessage_route (env : GatewayEnv) (kvs : List (String × Json))
    (pending : Option (List Json)) :
    handleMessage env (.obj kvs) pending =
      (if jIsStr (effType kvs) "chat" ∨ jIsStr (effType kvs) "query" then
        chatRouted env (.obj kvs) pending
      else if jIsStr (effType kvs) "download" then
        handleDownloadRequest env.download (.obj kvs) pending
      else
        .ok (errObj ("Unsupported message type: " ++ pyStr (effType kvs)), pending,
          .noRun)) := by
  unfold handleMessage msgType effType
  rw [pyDictGet_obj kvs "type"]
  rfl

theorem handleAgentQuery_bad (env : GatewayEnv) (kvs : List (String × Json))
    (hB : env.buildOutcome = .ok ())
    (hq : ∀ q, pyOfJson (jGet (.obj kvs) "query") = some (.str q) → pyStrip q = "") :
    handleAgentQuery env (.obj kvs) =
      .ok (errObj "Payload must include a non-empty 'query' field.") := by
  unfold handleAgentQuery
  rw [hB]
  cases hqv : pyOfJson (jGet (Json.obj kvs) "query") with
  | none => rfl
  | some v =>
      cases v with
      | str q =>
          have hqe := hq q hqv
          simp [hqe]
      | null => rfl
      | bool b => rfl
      | num n => rfl
      | arr xs => rfl
      | obj kvs2 => rfl

theorem handleAgentQuery_good (env : GatewayEnv) (kvs : List (String × Json))
    (q ans : String) (hB : env.buildOutcome = .ok ())
    (hq : pyOfJson (jGet (.obj kvs) "query") = some (.str q))
    (hne : pyStrip q ≠ "") (hrun : env.runOutcome q = .ok ans) :
    handleAgentQuery env (.obj kvs) = .ok (.obj [("answer", .str ans)]) := by
  unfold handleAgentQuery
  rw [hB, hq]
  dsimp only
  rw [if_neg hne, hrun]
  rfl

/-- C7: after authentication every JSON message is routed on its `type`
field, defaulting to `"chat"` when absent; for `chat`/`query` a missing,
non-string, or blank `query` is answered with an error, and a valid query's
agent result is serialized back as `{"answer": ...}`; `download` goes to
the download handler; and any other effective type is rejected with
`Unsupported message type: <type>`. -/
theorem C7_message_routing :
    (∀ kvs : List (String × Json), jlookup kvs "type" = none →
      effType kvs = .str "chat") ∧
    (∀ (env : GatewayEnv) (kvs : List (String × Json)) (pending : Option (List Json)),
      (jIsStr (effType kvs) "chat" = true ∨ jIsStr (effType kvs) "query" = true) →
      env.buildOutcome = .ok () →
      (∀ q, pyOfJson (jGet (.obj kvs) "query") = some (.str q) → pyStrip q = "") →
      handleMessage env (.obj kvs) pending =
        .ok (errObj "Payload must include a non-empty 'query' field.", pending, .noRun)) ∧
    (∀ (env : GatewayEnv) (kvs : List (String × Json)) (pending : Option (List Json))
        (q ans : String),
      (jIsStr (effType kvs) "chat" = true ∨ jIsStr (effType kvs) "query" = true) →
      env.buildOutcome = .ok () →
      pyOfJson (jGet (.obj kvs) "query") = some (.str q) → pyStrip q ≠ "" →
      env.runOutcome q = .ok ans →
      handleMessage env (.obj kvs) pending =
        .ok (.obj [("answer", .str ans)], pending, .noRun)) ∧
    (∀ (env : GatewayEnv) (kvs : List (String × Json)) (pending : Option (List Json)),
      jIsStr (effType kvs) "download" = true →
      handleMessage env (.obj kvs) pending =
        handleDownloadRequest env.download (.obj kvs) pending) ∧
    (∀ (env : GatewayEnv) (kvs : List (String × Json)) (pending : Option (List Json)),
      jIsStr (effType kvs) "chat" = false → jIsStr (effType kvs) "query" = false →
      jIsStr (effType kvs) "download" = false →
      handleMessage env (.obj kvs) pending =
        .ok (errObj ("Unsupported message type: " ++ pyStr (effType kvs)), pending,
          .noRun)) := by
  refine ⟨?_, ?_, ?_, ?_, ?_⟩
  · intro kvs h
    unfold effType jGet jGetD
    dsimp only
    rw [h]
    rfl
  · intro env kvs pending hty hB hq
    rw [handleMessage_route, if_pos hty]
    unfold chatRouted
    rw [handleAgentQuery_bad env kvs hB hq]
    rfl
  · intro env kvs pending q ans hty hB hq hne hrun
    rw [handleMessage_route, if_pos hty]
    unfold chatRouted
    rw [handleAgentQuery_good env kvs q ans hB hq hne hrun]
    rfl
  · intro env kvs pending hd
    have hmt := (jIsStr_eq_true_iff _ _).mp hd
    rw [handleMessage_route, hmt]
    rw [if_neg (by decide), if_pos (by decide)]
  · intro env kvs pending h1 h2 h3
    rw [handleMessage_route, if_neg (by simp [h1, h2]), if_neg (by simp [h3])]

theorem C7_message_routing_witness :
    handleMessage stubGatewayEnv
        (.obj [("type", .str "chat"), ("query", .str "hi")]) none =
      .ok (.obj [("answer", .str "answer")], none, .noRun) :=
  C7_message_routing.2.2.1 stubGatewayEnv [("type", .str "chat"), ("query", .str "hi")]
    none "hi" "answer" (.inl (by decide)) rfl rfl (by decide) rfl

/-- C10: a post-authentication message whose `type` member is present but
falsy (empty string, `null`, `false`, `0`, ...) is routed as a chat
message, exactly as an absent `type`; the
`Unsupported message type` rejection is produced only for truthy `type`
values other than `"chat"`, `"query"`, and `"download"`. -/
theorem C10_falsy_type_routes_chat :
    (∀ (env : GatewayEnv) (kvs : List (String × Json)) (pending : Option (List Json))
        (t : Json), jlookup kvs "type" = some t → pyTruthy t = false →
      effType kvs = .str "chat" ∧
      handleMessage env (.obj kvs) pending = chatRouted env (.obj kvs) pending) ∧
    (∀ (env : GatewayEnv) (kvs : List (String × Json)) (pending : Option (List Json)),
      jlookup kvs "type" = none →
      effType kvs = .str "chat" ∧
      handleMessage env (.obj kvs) pending = chatRouted env (.obj kvs) pending) ∧
    (∀ (env : GatewayEnv) (kvs : List (String × Json)) (pending : Option (List Json))
        (t : Json), jlookup kvs "type" = some t → pyTruthy t = true →
      jIsStr t "chat" = false → jIsStr t "query" = false → jIsStr t "download" = false →
      handleMessage env (.obj kvs) pending =
        .ok (errObj ("Unsupported message type: " ++ pyStr t), pending, .noRun)) := by
  have heffFalsy : ∀ (kvs : List (String × Json)) (t : Json),
      jlookup kvs "type" = some t → pyTruthy t = false → effType kvs = .str "chat" := by
    intro kvs t h hf
    unfold effType jGet jGetD
    dsimp only
    rw [h]
    cases t with
    | null => rfl
    | bool b => simp [pyOfJson, hf]
    | num n => simp [pyOfJson, hf]
    | str s => simp [pyOfJson, hf]
    | arr xs => simp [pyOfJson, hf]
    | obj kvs2 => simp [pyOfJson, hf]
  have heffTruthy : ∀ (kvs : List (String × Json)) (t : Json),
      jlookup kvs "type" = some t → pyTruthy t = true → effType kvs = t := by
    intro kvs t h ht
    unfold effType jGet jGetD
    dsimp only
    rw [h]
    cases t with
    | null => exact Bool.noConfusion ht
    | bool b => simp [pyOfJson, ht]
    | num n => simp [pyOfJson, ht]
    | str s => simp [pyOfJson, ht]
    | arr xs => simp [pyOfJson, ht]
    | obj kvs2 => simp [pyOfJson, ht]
  refine ⟨?_, ?_, ?_⟩
  · intro env kvs pending t h hf
    have he := heffFalsy kvs t h hf
    refine ⟨he, ?_⟩
    rw [handleMessage_route, he, if_pos (.inl (by decide))]
  · intro env kvs pending h
    have he : effType kvs = .str "chat" := by
      unfold effType jGet jGetD
      dsimp only
      rw [h]
      rfl
    refine ⟨he, ?_⟩
    rw [handleMessage_route, he, if_pos (.inl (by decide))]
  · intro env kvs pending t h ht h1 h2 h3
    have he := heffTruthy kvs t h ht
    rw [handleMessage_route, he, if_neg (by simp [h1, h2]), if_neg (by simp [h3])]

theorem C10_falsy_type_routes_chat_witness :
    effType [("type", .str "")] = .str "chat" ∧
    handleMessage stubGatewayEnv (.obj [("type", .str "")]) none =
      chatRouted stubGatewayEnv (.obj [("type", .str "")]) none :=
  C10_falsy_type_routes_chat.1 stubGatewayEnv [("type", .str "")] none (.str "")
    rfl (by decide)

/-!
## C2 — download index resolution
-/

/-- A follow-up download message selecting courses by 1-based indices. -/
def msgIndices (indices : List Int) : Json :=
  .obj [("type", .str "download"), ("course_indices", .arr (indices.map Json.num))]

/-- A course-catalog entry as JSON: an object whose first member is its
integer id, followed by the remaining fields. -/
def entryJson (p : Int × List (String × Json)) : Json :=
  .obj (("id", .num p.1) :: p.2)

theorem mapM_pyInt_num (l : List Int) : (l.map Json.num).mapM pyInt = .ok l := by
  induction l with
  | nil => rfl
  | cons x xs ih =>
      simp only [List.map_cons, List.mapM_cons, ih, pyInt]
      rfl

theorem dedupFirst_of_nodup (l : List Int) (h : l.Nodup) : dedupFirst l = l := by
  unfold dedupFirst
  suffices haux : ∀ (m acc : List Int), m.Nodup → acc.Nodup → (∀ x ∈ acc, x ∉ m) →
      m.foldl (fun acc x => if x ∈ acc then acc else acc ++ [x]) acc = acc ++ m by
    simpa using haux l [] h (by simp) (by simp)
  intro m
  induction m with
  | nil => intro acc _ _ _; simp
  | cons x xs ih =>
      intro acc hm hacc hdisj
      have hx : x ∉ acc := fun hmem => hdisj x hmem (by simp)
      simp only [List.foldl_cons, if_neg hx]
      rw [ih (acc ++ [x]) (List.nodup_cons.mp hm).2 ?_ ?_]
      · simp
      · rw [List.nodup_append]
        exact ⟨hacc, List.nodup_singleton x,
          fun a ha hax => hx ((List.mem_singleton.mp hax) ▸ ha)⟩
      · intro y hy
        rcases List.mem_append.mp hy with hy1 | hy2
        · exact fun hyxs => hdisj y hy1 (List.mem_cons_of_mem _ hyxs)
        · rcases List.mem_singleton.mp hy2 with rfl
          exact (List.nodup_cons.mp hm).1

theorem getD_map_fst (entries : List (Int × List (String × Json))) (n : Nat)
    (h : n < entries.length) :
    ∃ p : Int × List (String × Json),
      (entries.map entryJson).getD n .null = entryJson p ∧
      (entries.map Prod.fst).getD n 0 = p.1 := by
  induction entries generalizing n with
  | nil => simp at h
  | cons e es ih =>
      cases n with
      | zero => exact ⟨e, rfl, rfl⟩
      | succ m => exact ih m (by simpa using h)

theorem resolveIds_entries (entries : List (Int × List (String × Json)))
    (indices : List Int)
    (hrange : ∀ i ∈ indices, 1 ≤ i ∧ i ≤ (entries.length : Int)) :
    resolveIds (entries.map entryJson) indices =
      .ok (indices.map (fun i => (entries.map Prod.fst).getD (i - 1).toNat 0)) := by
  unfold resolveIds
  induction indices with
  | nil => rfl
  | cons i rest ih =>
      have hi := hrange i (by simp)
      have hlt : (i - 1).toNat < entries.length := by omega
      obtain ⟨p, hgd, hfst⟩ := getD_map_fst entries (i - 1).toNat hlt
      rw [List.mapM_cons, ih (fun j hj => hrange j (List.mem_cons_of_mem _ hj)),
        List.map_cons, hgd, hfst]
      rfl

/-- C2: with a catalog of k entries fetched by the immediately prior
download request, a follow-up `course_indices` request resolves each index
`i` (1 ≤ i ≤ k) to the id of the i-th catalog entry and runs the downloader
with exactly those ids; any index outside 1..k is rejected with the
out-of-range error, the downloader does not run, and the catalog is kept;
and a `course_indices` request with no previously fetched catalog is
rejected with the course-list-not-initialized error. -/
theorem C2_download_index_resolution :
    (∀ (env : DownloadEnv) (entries : List (Int × List (String × Json)))
        (indices : List Int),
      indices ≠ [] → indices.Nodup →
      (∀ i ∈ indices, 1 ≤ i ∧ i ≤ (entries.length : Int)) →
      env.downloaderOutcome = .ok () →
      handleDownloadRequest env (msgIndices indices) (some (entries.map entryJson)) =
        .ok (.obj [("status", .str "completed"), ("stats", env.stats)], none,
          .ran (some (indices.map (fun i => (entries.map Prod.fst).getD (i - 1).toNat 0)))
            true false)) ∧
    (∀ (env : DownloadEnv) (plist : List Json) (indices : List Int) (i : Int),
      i ∈ indices → (i < 1 ∨ i > (plist.length : Int)) →
      handleDownloadRequest env (msgIndices indices) (some plist) =
        .ok (errObj ("course_indices out of range: " ++
          pyStrIntList (indices.filter (fun idx =>
            decide (idx < 1) || decide (idx > (plist.length : Int))))),
          some plist, .noRun)) ∧
    (∀ (env : DownloadEnv) (indices : List Int),
      handleDownloadRequest env (msgIndices indices) none =
        .ok (errObj "Course list not initialized. Request the course list first.",
          none, .noRun)) := by
  refine ⟨?_, ?_, ?_⟩
  · intro env entries indices hne hnodup hrange hrun
    have hlen : (entries.map entryJson).length = entries.length := List.length_map _ _
    unfold handleDownloadRequest
    have h1 : pyOfJson (jGet (msgIndices indices) "course_ids") = none := rfl
    have h2 : pyOfJson (jGet (msgIndices indices) "course_indices") =
        some (.arr (indices.map Json.num)) := rfl
    have h3 : (jRawGet (msgIndices indices) "auto_confirm").getD (.bool true) =
        Json.bool true := rfl
    have h4 : pyTruthy (jGetD (msgIndices indices) "skip_download" (.bool false)) = false := rfl
    rw [h1, h2, h3, h4]
    dsimp only
    rw [mapM_pyInt_num indices]
    dsimp only
    rw [if_neg (by simp [hne] : ¬ indices.isEmpty = true)]
    have hinv : indices.filter (fun idx =>
        decide (idx < 1) || decide (idx > ((entries.map entryJson).length : Int))) = [] := by
      rw [List.filter_eq_nil_iff]
      intro j hj
      have := hrange j hj
      simp only [hlen, Bool.or_eq_true, decide_eq_true_eq, not_or]
      constructor <;> omega
    rw [hinv]
    rw [if_neg (by simp : ¬ (¬ (List.isEmpty [] = true)))]
    rw [dedupFirst_of_nodup indices hnodup, resolveIds_entries entries indices hrange]
    unfold downloadTail
    simp [hrun, hne, isBoolVal, bind, Except.bind, List.map_eq_nil_iff]
    rfl
  · intro env plist indices i hmem hout
    unfold handleDownloadRequest
    have h1 : pyOfJson (jGet (msgIndices indices) "course_ids") = none := rfl
    have h2 : pyOfJson (jGet (msgIndices indices) "course_indices") =
        some (.arr (indices.map Json.num)) := rfl
    have h3 : (jRawGet (msgIndices indices) "auto_confirm").getD (.bool true) =
        Json.bool true := rfl
    have h4 : pyTruthy (jGetD (msgIndices indices) "skip_download" (.bool false)) = false := rfl
    rw [h1, h2, h3, h4]
    dsimp only
    rw [mapM_pyInt_num indices]
    dsimp only
    rw [if_neg (by simp [List.ne_nil_of_mem hmem] : ¬ indices.isEmpty = true)]
    have hinv : ¬ (indices.filter (fun idx =>
        decide (idx < 1) || decide (idx > (plist.length : Int)))).isEmpty = true := by
      simp only [List.isEmpty_iff]
      intro hcon
      have : i ∈ indices.filter (fun idx =>
          decide (idx < 1) || decide (idx > (plist.length : Int))) := by
        rw [List.mem_filter]
        refine ⟨hmem, ?_⟩
        rcases hout with h | h <;> simp [h]
      rw [hcon] at this
      cases this
    rw [if_pos hinv]
    rfl
  · intro env indices
    rfl

/-- Stub download collaborators for witnesses. -/
def stubDownloadEnv : DownloadEnv := ⟨.ok [], .ok (), .null⟩

theorem C2_download_index_resolution_witness :
    handleDownloadRequest stubDownloadEnv (msgIndices [2])
        (some ([((111 : Int), ([] : List (String × Json))), (222, [])].map entryJson)) =
      .ok (.obj [("status", .str "completed"), ("stats", .null)], none,
        .ran (some [222]) true false) :=
  C2_download_index_resolution.1 stubDownloadEnv [(111, []), (222, [])] [2]
    (by decide) (by decide) (by decide) rfl
